import Mathlib
/-
Shallow embedding of the core of the Healthcase Symptom Checker
(emergency rule engine, validator, disease match scorer, rule-based
fallback predictor), together with proofs of the spec's claims about it.

Python dictionaries whose values may be None, booleans, numbers or strings
are modelled as association lists over a four-constructor `Value` type.
Python floats are modelled as exact rationals.
Python exceptions are modelled with `Except String`.
-/
namespace Healthcase
/-- A Python value as it occurs in the user-data dictionaries:
`None`, a bool, a number (int or float, modelled as an exact rational),
or a string. -/
inductive Value where
  | none
  | bool (b : Bool)
  | num  (q : ℚ)
  | str  (s : String)
deriving DecidableEq, Repr
/-- A Python dict with string keys, modelled as an association list
(in insertion order; keys are unique in every dict this file builds). -/
abbrev Dict := List (String × Value)
/-- Python `d.get(k, default)`. A key stored with value `None` and a
missing key both surface as `Value.none` when the default is `Value.none`. -/
def dgetD (d : Dict) (k : String) (dflt : Value) : Value :=
  (List.lookup k d).getD dflt
/-- Python `d.get(k)` (default `None`). -/
def dget (d : Dict) (k : String) : Value :=
  dgetD d k .none
/-- Numeric view of a value, mirroring Python's numeric tower where
`bool` is an `int` subtype: `True` is 1 and `False` is 0. Strings and
`None` have no numeric view for comparison purposes. -/
def Value.toNum? : Value → Option ℚ
  | .num q  => some q
  | .bool b => some (if b then 1 else 0)
  | _       => Option.none
/-- Python `==` between values (total, never raises): numbers and booleans
compare numerically across types, `None` only equals `None`, strings
compare as strings, and every other cross-type pair is unequal. -/
def pyEq : Value → Value → Bool
  | .str a, .str b => a == b
  | .none, .none => true
  | a, b =>
    match a.toNum?, b.toNum? with
    | some x, some y => x == y
    | _, _ => false
/-- Python truthiness of a value (`bool(v)`). -/
def Value.truthy : Value → Bool
  | .none   => false
  | .bool b => b
  | .num q  => q != 0
  | .str s  => s != ""
/-- Whether a value is a string (used to state hypotheses that keep the
scorer away from Python `TypeError` paths). -/
def Value.isStr : Value → Bool
  | .str _ => true
  | _ => false
/-- An ordering comparison between two values, mirroring Python: defined
when both sides have a numeric view (numbers and bools) or both are
strings; every other pair raises `TypeError`. -/
def pyCmp (fq : ℚ → ℚ → Bool) (fs : String → String → Bool) :
    Value → Value → Except String Bool
  | a, b =>
    match a.toNum?, b.toNum? with
    | some x, some y => .ok (fq x y)
    | _, _ =>
      match a, b with
      | .str s, .str t => .ok (fs s t)
      | _, _ => .error "TypeError: unorderable types"
/-- The validated user record: the three sub-dictionaries produced by
`InputValidator.validate_user_data` (and consumed by the emergency rule
engine and the match scorer). -/
structure UserData where
  basic_info : Dict
  symptoms : Dict
  test_results : Dict
deriving DecidableEq, Repr
/-- The `EmergencyAlert` result model of `SymptomAnalyzer.check_emergency`. -/
structure EmergencyAlert where
  is_emergency : Bool
  reasons : List String
  message : String
deriving DecidableEq, Repr
/-- The `SymptomAnalyzer.EMERGENCY_RULES`: each rule is a conjunction of
(field-path, operator, expected-value) triples with a reason string.
(The Python source stores the triples flattened in one list; the list
lengths are multiples of three, so the chunked form is identical.) -/
def EMERGENCY_RULES : List (List (String × String × Value) × String) :=
  [ ([("temperature", ">", .num 40)], "High fever (>40°C)"),
    ([("symptoms.confusion", "==", .bool true),
      ("symptoms.fever", "==", .bool true)], "Fever with confusion"),
    ([("symptoms.shortness_of_breath", "==", .bool true),
      ("symptoms.chest_pain", "==", .bool true)],
     "Shortness of breath with chest pain") ]
/-- The `SymptomAnalyzer._check_condition`: a single operator application.
Ordering operators first test `actual_value is not None` and therefore
evaluate to `false` (not an error) on a null/missing field; an unknown
operator yields `false`. -/
def check_condition (actual : Value) (op : String) (expected : Value) :
    Except String Bool :=
  if op == "==" then .ok (pyEq actual expected)
  else if op == "!=" then .ok (!pyEq actual expected)
  else if op == ">" then
    if actual == .none then .ok false
    else pyCmp (fun x y => decide (x > y)) (fun s t => decide (t < s)) actual expected
  else if op == "<" then
    if actual == .none then .ok false
    else pyCmp (fun x y => decide (x < y)) (fun s t => decide (s < t)) actual expected
  else if op == ">=" then
    if actual == .none then .ok false
    else pyCmp (fun x y => decide (x ≥ y)) (fun s t => decide (t ≤ s)) actual expected
  else if op == "<=" then
    if actual == .none then .ok false
    else pyCmp (fun x y => decide (x ≤ y)) (fun s t => decide (s ≤ t)) actual expected
  else .ok false
/-- Python `field_path.split(".", 1)` when the path contains a dot:
the part before the first dot and the untouched remainder; `Option.none`
when there is no dot. -/
def splitAtDot : List Char → Option (List Char × List Char)
  | [] => Option.none
  | c :: cs =>
    if c = '.' then some ([], cs)
    else
      match splitAtDot cs with
      | some (l, r) => some (c :: l, r)
      | Option.none => Option.none
/-- Field lookup of `SymptomAnalyzer._evaluate_conditions`: a dotted path
`"symptoms.x"` reads the symptoms dict (any other prefix the basic-info
dict); an undotted path reads the basic-info dict. -/
def lookupField (fieldPath : String) (symptoms basic_info : Dict) : Value :=
  match splitAtDot fieldPath.data with
  | some (obj, rest) =>
    if obj = "symptoms".data then dget symptoms (String.mk rest)
    else dget basic_info (String.mk rest)
  | Option.none => dget basic_info fieldPath
/-- The `SymptomAnalyzer._evaluate_conditions`: conjunction of the triples,
left to right, returning `false` at the first failing condition. -/
def evaluate_conditions (conds : List (String × String × Value))
    (symptoms basic_info : Dict) : Except String Bool :=
  match conds with
  | [] => .ok true
  | (fieldPath, op, expected) :: rest => do
    let actual := lookupField fieldPath symptoms basic_info
    let ok ← check_condition actual op expected
    if ok then evaluate_conditions rest symptoms basic_info else .ok false
/-- The reason-collecting loop of `check_emergency`: every rule is
evaluated (no cross-rule short-circuit) and the reasons of the rules
that hold are collected in rule order. -/
def collectReasons (rules : List (List (String × String × Value) × String))
    (symptoms basic_info : Dict) : Except String (List String) :=
  match rules with
  | [] => .ok []
  | (conds, reason) :: rest => do
    let t ← evaluate_conditions conds symptoms basic_info
    let others ← collectReasons rest symptoms basic_info
    .ok (if t then reason :: others else others)
/-- The `SymptomAnalyzer.check_emergency`: evaluates the fixed rule list and
returns the alert; any exception inside becomes a `DataProcessingError`,
modelled as the `Except.error` case. -/
def check_emergency (user_data : UserData) : Except String EmergencyAlert := do
  let reasons ← collectReasons EMERGENCY_RULES user_data.symptoms user_data.basic_info
  let is_emergency := decide (reasons.length > 0)
  .ok { is_emergency := is_emergency,
        reasons := reasons,
        message := if is_emergency then "Seek immediate medical attention" else "" }
/-! ### Validator (`src/healthcase/validators.py`) -/
/-- Python `s.strip()` (whitespace on both ends). -/
def strTrim (s : String) : String :=
  String.mk (((s.data.dropWhile Char.isWhitespace).reverse.dropWhile
    Char.isWhitespace).reverse)
/-- Python `s.lower()`. -/
def strLower (s : String) : String := String.mk (s.data.map Char.toLower)
/-- Python `s.upper()`. -/
def strUpper (s : String) : String := String.mk (s.data.map Char.toUpper)
/-- Split a char list at the first occurrence of `c`; `Option.none` when
`c` does not occur. -/
def splitAtCh (c : Char) : List Char → Option (List Char × List Char)
  | [] => Option.none
  | d :: ds =>
    if d = c then some ([], ds)
    else
      match splitAtCh c ds with
      | some (l, r) => some (d :: l, r)
      | Option.none => Option.none
/-- Digit characters to the number they denote (most significant first). -/
def digitsToNat (l : List Char) : ℕ :=
  l.foldl (fun n c => n * 10 + (c.toNat - 48)) 0
/-- Exponent part of a Python float literal: optional sign, then digits. -/
def parseExp (l : List Char) : Option ℤ :=
  match l with
  | '+' :: ds =>
    if ds ≠ [] ∧ ds.all Char.isDigit then some ((digitsToNat ds : ℤ)) else Option.none
  | '-' :: ds =>
    if ds ≠ [] ∧ ds.all Char.isDigit then some (-(digitsToNat ds : ℤ)) else Option.none
  | ds =>
    if ds ≠ [] ∧ ds.all Char.isDigit then some ((digitsToNat ds : ℤ)) else Option.none
/-- Mantissa of a Python float literal: `digits`, `digits.digits`,
`digits.` or `.digits`. -/
def parseMantissa (l : List Char) : Option ℚ :=
  match splitAtCh '.' l with
  | Option.none =>
    if l ≠ [] ∧ l.all Char.isDigit then some ((digitsToNat l : ℚ)) else Option.none
  | some (ip, fp) =>
    if (ip ≠ [] ∨ fp ≠ []) ∧ ip.all Char.isDigit ∧ fp.all Char.isDigit then
      some ((digitsToNat ip : ℚ) + (digitsToNat fp : ℚ) / (10 : ℚ) ^ fp.length)
    else Option.none
/-- Python `float(s)` on a string: strip whitespace, optional sign,
decimal mantissa, optional exponent. (The special literals `inf`/`nan`
are not modelled; no claim touches them, and a failed parse is the
`ValueError` path either way.) -/
def parsePyFloat (s : String) : Option ℚ :=
  let l := (s.data.dropWhile Char.isWhitespace).reverse.dropWhile Char.isWhitespace
  let l := l.reverse
  let (sign, body) : ℚ × List Char :=
    match l with
    | '+' :: rest => (1, rest)
    | '-' :: rest => (-1, rest)
    | rest => (1, rest)
  let body := body.map (fun c => if c = 'E' then 'e' else c)
  match splitAtCh 'e' body with
  | Option.none => (parseMantissa body).map (fun m => sign * m)
  | some (m, e) => do
    let mv ← parseMantissa m
    let ev ← parseExp e
    pure (sign * mv * (10 : ℚ) ^ ev)
/-- Python `float(x)` over our value type: numbers pass through, bools are
0/1 (`bool` is an `int` subtype), strings are parsed, `None` raises. -/
def pyFloat : Value → Option ℚ
  | .num q  => some q
  | .bool b => some (if b then 1 else 0)
  | .str s  => parsePyFloat s
  | .none   => Option.none
/-- Python `int(q)` on a float: truncation toward zero. -/
def pyInt (q : ℚ) : ℤ := if 0 ≤ q then ⌊q⌋ else ⌈q⌉
/-- Python `str(x)`. The numeric rendering is only rendering-faithful for
integers (the one case the validators' accept-paths can rely on); a
non-integer is rendered `num/den`, which — like CPython's decimal
rendering of a non-integral float — never matches a digits-only or
enum pattern. -/
def pyStr : Value → String
  | .str s  => s
  | .bool b => if b then "True" else "False"
  | .none   => "None"
  | .num q  =>
    if q.den = 1 then toString q.num
    else toString q.num ++ "/" ++ toString q.den
/-- Python `x is None or x == ""`, the shared null/empty guard of the
validators. -/
def isNoneOrEmpty (v : Value) : Bool := v == .none || pyEq v (.str "")
/-- Validation bounds of `Config`. -/
def MIN_AGE : ℤ := 0
def MAX_AGE : ℤ := 150
def MIN_WEIGHT : ℚ := 1
def MAX_WEIGHT : ℚ := 500
def MIN_TEMPERATURE : ℚ := 30
def MAX_TEMPERATURE : ℚ := 50
/-- The `InputValidator.validate_age` (also reused by the source for
`fever_duration`): null/empty passes through as unknown; otherwise
`int(float(x))` range-checked inclusively against 0–150. -/
def validate_age (v : Value) : Except String (Option ℤ) :=
  if isNoneOrEmpty v then .ok Option.none
  else
    match pyFloat v with
    | some q =>
      let a := pyInt q
      if MIN_AGE ≤ a ∧ a ≤ MAX_AGE then .ok (some a)
      else .error "Age must be between 0 and 150"
    | Option.none => .error "Age must be a valid number"
/-- The `InputValidator.validate_weight`. -/
def validate_weight (v : Value) : Except String (Option ℚ) :=
  if isNoneOrEmpty v then .ok Option.none
  else
    match pyFloat v with
    | some q =>
      if MIN_WEIGHT ≤ q ∧ q ≤ MAX_WEIGHT then .ok (some q)
      else .error "Weight must be between 1.0 and 500.0 kg"
    | Option.none => .error "Weight must be a valid number"
/-- The `InputValidator.validate_temperature`. -/
def validate_temperature (v : Value) : Except String (Option ℚ) :=
  if isNoneOrEmpty v then .ok Option.none
  else
    match pyFloat v with
    | some q =>
      if MIN_TEMPERATURE ≤ q ∧ q ≤ MAX_TEMPERATURE then .ok (some q)
      else .error "Temperature must be between 30.0 and 50.0°C"
    | Option.none => .error "Temperature must be a valid number"
/-- The `InputValidator.validate_gender`: `str(x).strip().upper()` must be
M or F. -/
def validate_gender (v : Value) : Except String (Option String) :=
  if isNoneOrEmpty v then .ok Option.none
  else
    let gs := strUpper (strTrim (pyStr v))
    if gs = "M" ∨ gs = "F" then .ok (some gs)
    else .error "Gender must be M or F"
/-- The `InputValidator.validate_cough_type`: `str(x).strip().lower()` must be
dry or productive. -/
def validate_cough_type (v : Value) : Except String (Option String) :=
  if isNoneOrEmpty v then .ok Option.none
  else
    let cs := strLower (strTrim (pyStr v))
    if cs = "dry" ∨ cs = "productive" then .ok (some cs)
    else .error "Cough type must be dry or productive"
/-- The `InputValidator.validate_boolean`: native bools pass through; strings
from the y/yes/true/1 and n/no/false/0 token sets (case-insensitive,
stripped) convert; everything else fails. -/
def validate_boolean (v : Value) : Except String Bool :=
  match v with
  | .bool b => .ok b
  | .str s =>
    let t := strLower (strTrim s)
    if t = "y" ∨ t = "yes" ∨ t = "true" ∨ t = "1" then .ok true
    else if t = "n" ∨ t = "no" ∨ t = "false" ∨ t = "0" then .ok false
    else .error "Value must be a valid boolean (y/n, yes/no, true/false, 1/0)"
  | _ => .error "Value must be a valid boolean (y/n, yes/no, true/false, 1/0)"
/-- Control characters rejected by `sanitize_string`
(`[\x00-\x1f\x7f-\x9f]`). -/
def isControlChar (c : Char) : Bool :=
  c.toNat ≤ 0x1f || (0x7f ≤ c.toNat && c.toNat ≤ 0x9f)
/-- Whether `pat` is an initial segment of `l`. -/
def startsWithL : List Char → List Char → Bool
  | [], _ => true
  | _ :: _, [] => false
  | p :: ps, c :: cs => p == c && startsWithL ps cs
/-- Whether `pat` occurs as a contiguous run inside `l`. -/
def containsSub (pat : List Char) : List Char → Bool
  | [] => pat.isEmpty
  | c :: cs => startsWithL pat (c :: cs) || containsSub pat cs
/-- Search for the HTML-tag pattern `<[^>]*>`: succeeds iff some
opening angle bracket has a closing one after it. -/
def hasHtmlTag : List Char → Bool
  | [] => false
  | c :: cs => (c == '<' && cs.contains '>') || hasHtmlTag cs
/-- Word character of the regex class backslash-w. -/
def isWordChar (c : Char) : Bool := c.isAlphanum || c == '_'
/-- Match of the event-handler pattern at the head of
an (already lowercased) char list: `on`, one or more word chars,
optional whitespace, `=`. -/
def hasEventHandlerAt (l : List Char) : Bool :=
  match l with
  | 'o' :: 'n' :: rest =>
    let w := rest.takeWhile isWordChar
    let r2 := (rest.dropWhile isWordChar).dropWhile Char.isWhitespace
    decide (w ≠ []) &&
      (match r2 with
       | '=' :: _ => true
       | _ => false)
  | _ => false
/-- Search for the event-handler pattern anywhere in the list. -/
def hasEventHandler : List Char → Bool
  | [] => false
  | c :: cs => hasEventHandlerAt (c :: cs) || hasEventHandler cs
/-- Python `s.split()` (split on whitespace runs, dropping empties),
with a reversed-word accumulator. -/
def splitWsAux : List Char → List Char → List (List Char)
  | [], acc => if acc = [] then [] else [acc.reverse]
  | c :: cs, acc =>
    if c.isWhitespace then
      if acc = [] then splitWsAux cs [] else acc.reverse :: splitWsAux cs []
    else splitWsAux cs (c :: acc)
/-- Python `" ".join(words)`. -/
def joinWords : List (List Char) → List Char
  | [] => []
  | [w] => w
  | w :: ws => w ++ ' ' :: joinWords ws
/-- Python `" ".join(s.split())`: whitespace collapsed to single spaces,
ends stripped. -/
def collapseWs (s : String) : String := String.mk (joinWords (splitWsAux s.data []))
/-- The `InputValidator.sanitize_string`: reject the four suspicious patterns
(HTML tag, `javascript:`, event handler, control characters — the text
patterns case-insensitively), then collapse whitespace and truncate to
`maxLength` when that limit is positive and exceeded. -/
def sanitize_string (s : String) (maxLength : Option ℕ) : Except String String :=
  let low := s.data.map Char.toLower
  if hasHtmlTag s.data then .error "Invalid input detected"
  else if containsSub "javascript:".data low then .error "Invalid input detected"
  else if hasEventHandler low then .error "Invalid input detected"
  else if s.data.any isControlChar then .error "Invalid input detected"
  else
    let sanitized := collapseWs s
    match maxLength with
    | some m =>
      .ok (if 0 < m ∧ m < sanitized.data.length
           then String.mk (sanitized.data.take m) else sanitized)
    | Option.none => .ok sanitized
/-- The time-unit words of the duration regex
`^(\d+\s*(days?|weeks?|months?|hours?)?)$`. -/
def timeUnitWords : List (List Char) :=
  ["day", "days", "week", "weeks", "month", "months", "hour", "hours"].map
    String.data
/-- Match of the duration regex (case-insensitive): one or more digits,
optional whitespace, optional time-unit word, end of string. -/
def isDurationFormat (s : String) : Bool :=
  let l := s.data.map Char.toLower
  let ds := l.takeWhile Char.isDigit
  let rest := (l.dropWhile Char.isDigit).dropWhile Char.isWhitespace
  decide (ds ≠ []) && (rest.isEmpty || timeUnitWords.contains rest)
/-- Python `s.isdigit()` (ASCII digits suffice here). -/
def pyIsDigit (s : String) : Bool :=
  decide (s.data ≠ []) && s.data.all Char.isDigit
/-- The `InputValidator.validate_duration`: null/empty → unknown; otherwise
`sanitize_string(str(x), 50)` and the sanitized value must match the
duration regex or be all digits. -/
def validate_duration (v : Value) : Except String (Option String) :=
  if isNoneOrEmpty v then .ok Option.none
  else do
    let dstr ← sanitize_string (pyStr v) (some 50)
    if isDurationFormat dstr || pyIsDigit dstr then .ok (some dstr)
    else .error "Duration must be a number or include time units (days, weeks, etc.)"
/-- The `InputValidator.validate_test_result`: Malaria/Dengue/Typhoid follow
the boolean positive/negative convention, the other tests the numeric
`float(x)` convention; null/empty → unknown. -/
def validate_test_result (v : Value) (test_name : String) : Except String Value :=
  if isNoneOrEmpty v then .ok .none
  else if test_name = "Malaria" ∨ test_name = "Dengue" ∨ test_name = "Typhoid" then
    match v with
    | .str s =>
      let t := strLower (strTrim s)
      if t = "positive" ∨ t = "true" ∨ t = "1" ∨ t = "yes" then .ok (.bool true)
      else if t = "negative" ∨ t = "false" ∨ t = "0" ∨ t = "no" then .ok (.bool false)
      else .error (test_name ++ " must be positive/negative")
    | .bool b => .ok (.bool b)
    | _ => .error (test_name ++ " must be positive/negative")
  else
    match pyFloat v with
    | some q => .ok (.num q)
    | Option.none => .error (test_name ++ " must be a valid number")
/-- Raw (pre-validation) user input: the three sub-dictionaries read with
`data.get(..., {})`. -/
structure RawData where
  basic_info : Dict
  symptoms : Dict
  test_results : Dict
deriving DecidableEq, Repr
def optNum : Option ℚ → Value := fun o => o.elim .none .num
def optInt : Option ℤ → Value := fun o => o.elim .none (fun n => .num (n : ℚ))
def optStr : Option String → Value := fun o => o.elim .none .str
/-- The basic-info section of `validate_user_data`, fields in the
source's literal order. -/
def validateBasicInfo (bi : Dict) : Except String Dict := do
  let age ← validate_age (dget bi "age")
  let gender ← validate_gender (dget bi "gender")
  let weight ← validate_weight (dget bi "weight")
  let temperature ← validate_temperature (dget bi "temperature")
  let duration ← validate_duration (dget bi "duration")
  let chronic_diseases ← validate_boolean (dgetD bi "chronic_diseases" (.bool false))
  .ok [("age", optInt age), ("gender", optStr gender), ("weight", optNum weight),
       ("temperature", optNum temperature), ("duration", optStr duration),
       ("chronic_diseases", .bool chronic_diseases)]
/-- The twenty boolean symptom flags, in the source's literal order. -/
def symptomFlagNames : List String :=
  ["fever", "fatigue", "cough", "headache", "body_pain", "nausea", "vomiting",
   "diarrhea", "rash", "sore_throat", "shortness_of_breath", "chest_pain",
   "confusion", "recent_travel", "medication", "appetite_change",
   "urine_change", "weight_loss", "night_sweats", "exposure"]
/-- The uniform `validate_boolean(symptoms.get(name, False))` entries of
the symptoms literal. -/
def validateFlags (sy : Dict) : List String → Except String Dict
  | [] => .ok []
  | n :: rest => do
    let b ← validate_boolean (dgetD sy n (.bool false))
    let others ← validateFlags sy rest
    .ok ((n, .bool b) :: others)
/-- The symptoms section of `validate_user_data`: the twenty flags, then
`fever_duration` (validated with `validate_age`, as in the source) and
`cough_type`. -/
def validateSymptoms (sy : Dict) : Except String Dict := do
  let flags ← validateFlags sy symptomFlagNames
  let fever_duration ← validate_age (dget sy "fever_duration")
  let cough_type ← validate_cough_type (dget sy "cough_type")
  .ok (flags ++ [("fever_duration", optInt fever_duration),
                 ("cough_type", optStr cough_type)])
/-- The fixed test-result key list of `validate_user_data`. -/
def testNames : List String :=
  ["WBC", "Platelets", "Hemoglobin", "Blood_Sugar", "ALT", "Creatinine",
   "Malaria", "Dengue", "Typhoid"]
/-- The test-results loop of `validate_user_data`. -/
def validateTests (tr : Dict) : List String → Except String Dict
  | [] => .ok []
  | n :: rest => do
    let v ← validate_test_result (dget tr n) n
    let others ← validateTests tr rest
    .ok ((n, v) :: others)
/-- The `InputValidator.validate_user_data`: validate the three sections in
order and assemble the canonical record. -/
def validate_user_data (data : RawData) : Except String UserData := do
  let bi ← validateBasicInfo data.basic_info
  let sy ← validateSymptoms data.symptoms
  let tr ← validateTests data.test_results testNames
  .ok ⟨bi, sy, tr⟩
/-! ### Match scorer (`disease_comparator.py`) -/
/-- A profile expectation: an inclusive numeric range (a Python tuple in
the source, recognised with `isinstance(..., tuple)`) or an exact scalar
expectation. -/
inductive Expected where
  | range (lo hi : ℚ)
  | exact (v : Value)
deriving DecidableEq, Repr
/-- A disease reference profile: expected symptoms (exact values),
expected test results and expected basic info. -/
structure Profile where
  symptoms : Dict
  test_results : List (String × Expected)
  basic_info : List (String × Expected)
deriving DecidableEq, Repr
/-- The `"Viral Fever"` entry of `PREDEFINED_DISEASES`. -/
def viralFeverProfile : Profile :=
  { symptoms := [("fever", .bool true), ("fatigue", .bool true),
                 ("headache", .bool true), ("body_pain", .bool true),
                 ("sore_throat", .bool true), ("appetite_change", .bool true),
                 ("fever_duration", .num 3)],
    test_results := [("WBC", .range 4000 11000), ("Platelets", .range 150000 450000),
                     ("Hemoglobin", .range 12 16), ("Blood_Sugar", .range 70 140),
                     ("ALT", .range 7 56), ("Creatinine", .range 0.6 1.2)],
    basic_info := [("temperature", .range 37.5 39.5), ("duration", .range 1 7)] }
/-- The `"Dengue"` entry of `PREDEFINED_DISEASES`. -/
def dengueProfile : Profile :=
  { symptoms := [("fever", .bool true), ("fatigue", .bool true),
                 ("headache", .bool true), ("body_pain", .bool true),
                 ("nausea", .bool true), ("rash", .bool true),
                 ("recent_travel", .bool true), ("fever_duration", .num 5)],
    test_results := [("WBC", .range 2000 5000), ("Platelets", .range 20000 100000),
                     ("Hemoglobin", .range 10 14), ("Blood_Sugar", .range 70 140),
                     ("ALT", .range 30 100), ("Creatinine", .range 0.6 1.2),
                     ("Dengue", .exact (.bool true))],
    basic_info := [("temperature", .range 38 40), ("duration", .range 3 10)] }
/-- The `"Typhoid"` entry of `PREDEFINED_DISEASES`. -/
def typhoidProfile : Profile :=
  { symptoms := [("fever", .bool true), ("fatigue", .bool true),
                 ("headache", .bool true), ("nausea", .bool true),
                 ("vomiting", .bool true), ("diarrhea", .bool true),
                 ("appetite_change", .bool true), ("fever_duration", .num 7)],
    test_results := [("WBC", .range 3000 8000), ("Platelets", .range 100000 300000),
                     ("Hemoglobin", .range 10 14), ("Blood_Sugar", .range 70 140),
                     ("ALT", .range 20 80), ("Creatinine", .range 0.6 1.2),
                     ("Typhoid", .exact (.bool true))],
    basic_info := [("temperature", .range 38 40.5), ("duration", .range 5 14)] }
/-- The `"Malaria"` entry of `PREDEFINED_DISEASES`. -/
def malariaProfile : Profile :=
  { symptoms := [("fever", .bool true), ("fatigue", .bool true),
                 ("headache", .bool true), ("body_pain", .bool true),
                 ("nausea", .bool true), ("vomiting", .bool true),
                 ("recent_travel", .bool true), ("fever_duration", .num 4)],
    test_results := [("WBC", .range 4000 12000), ("Platelets", .range 50000 150000),
                     ("Hemoglobin", .range 8 12), ("Blood_Sugar", .range 70 140),
                     ("ALT", .range 20 60), ("Creatinine", .range 0.6 1.2),
                     ("Malaria", .exact (.bool true))],
    basic_info := [("temperature", .range 38 40), ("duration", .range 2 10)] }
/-- The `"COVID-19"` entry of `PREDEFINED_DISEASES`. -/
def covidProfile : Profile :=
  { symptoms := [("fever", .bool true), ("cough", .bool true),
                 ("fatigue", .bool true), ("shortness_of_breath", .bool true),
                 ("sore_throat", .bool true), ("headache", .bool true),
                 ("body_pain", .bool true), ("loss_of_taste_smell", .bool true),
                 ("fever_duration", .num 5), ("cough_type", .str "dry")],
    test_results := [("WBC", .range 3000 10000), ("Platelets", .range 100000 400000),
                     ("Hemoglobin", .range 11 15), ("Blood_Sugar", .range 70 140),
                     ("ALT", .range 10 50), ("Creatinine", .range 0.6 1.2)],
    basic_info := [("temperature", .range 37.5 39), ("duration", .range 3 14)] }
/-- The `PREDEFINED_DISEASES`, in declaration order. -/
def PREDEFINED_DISEASES : List (String × Profile) :=
  [("Viral Fever", viralFeverProfile), ("Dengue", dengueProfile),
   ("Typhoid", typhoidProfile), ("Malaria", malariaProfile),
   ("COVID-19", covidProfile)]
/-- Counting loop of `calculate_symptom_match`: a profile entry counts as
checked when its key is present in the user dict (even when stored as
null) and as matched when the user value `==` the expected one. -/
def calcSymptomCounts (user : Dict) : List (String × Value) → ℕ × ℕ
  | [] => (0, 0)
  | (k, expected) :: rest =>
    match List.lookup k user with
    | some v =>
      let (m, t) := calcSymptomCounts user rest
      (if pyEq v expected then m + 1 else m, t + 1)
    | Option.none => calcSymptomCounts user rest
/-- The `calculate_symptom_match`: matched/checked, or 0 when nothing was
checked. -/
def calculate_symptom_match (user disease : Dict) : ℚ :=
  let (m, t) := calcSymptomCounts user disease
  if 0 < t then (m : ℚ) / (t : ℚ) else 0
/-- The chained comparison `lo <= v <= hi` of the test pass: Python
evaluates `lo <= v` first and short-circuits, and raises `TypeError`
when `v` has no numeric view. -/
def inRange (lo hi : ℚ) (v : Value) : Except String Bool :=
  match v.toNum? with
  | some x => .ok (decide (lo ≤ x) && decide (x ≤ hi))
  | Option.none => .error "TypeError: unorderable types"
/-- Counting loop of `calculate_test_match`: a profile entry counts as
checked when the user has the key with a non-null value; a range
expectation is checked with the inclusive bounds, a scalar one with
`==`. -/
def calcTestCounts (user : Dict) : List (String × Expected) → Except String (ℕ × ℕ)
  | [] => .ok (0, 0)
  | (k, e) :: rest =>
    match List.lookup k user with
    | some v =>
      if v = .none then calcTestCounts user rest
      else
        match (match e with
               | .range lo hi => inRange lo hi v
               | .exact ev => .ok (pyEq v ev)) with
        | .error err => .error err
        | .ok inc =>
          match calcTestCounts user rest with
          | .error err => .error err
          | .ok (m, t) => .ok (if inc then m + 1 else m, t + 1)
    | Option.none => calcTestCounts user rest
/-- The `calculate_test_match`. -/
def calculate_test_match (user : Dict) (disease : List (String × Expected)) :
    Except String ℚ := do
  let (m, t) ← calcTestCounts user disease
  .ok (if 0 < t then (m : ℚ) / (t : ℚ) else 0)
/-- Numeric conversion of the vitals pass: strings go through
`float(...)`, other values keep their numeric view; `Option.none` is the
caught `ValueError`/`TypeError`. -/
def basicNum : Value → Option ℚ
  | .str s => parsePyFloat s
  | v => v.toNum?
/-- Counting loop of `calculate_basic_info_match`: like the test pass,
except that a failed numeric conversion on a range check removes that
single check from both counters (the source increments `total_checks`
and then decrements it back in the `except` arm). -/
def calcBasicCounts (user : Dict) : List (String × Expected) → ℕ × ℕ
  | [] => (0, 0)
  | (k, e) :: rest =>
    match List.lookup k user with
    | some v =>
      if v = .none then calcBasicCounts user rest
      else
        let (m, t) := calcBasicCounts user rest
        match e with
        | .range lo hi =>
          match basicNum v with
          | some x => (if lo ≤ x ∧ x ≤ hi then m + 1 else m, t + 1)
          | Option.none => (m, t)
        | .exact ev => (if pyEq v ev then m + 1 else m, t + 1)
    | Option.none => calcBasicCounts user rest
/-- The `calculate_basic_info_match`. -/
def calculate_basic_info_match (user : Dict) (disease : List (String × Expected)) : ℚ :=
  let (m, t) := calcBasicCounts user disease
  if 0 < t then (m : ℚ) / (t : ℚ) else 0
/-- Per-profile result of `compare_with_diseases`. -/
structure MatchResult where
  disease : String
  overall_match : ℚ
  symptom_match : ℚ
  test_match : ℚ
  basic_match : ℚ
deriving DecidableEq, Repr
/-- One iteration of the `compare_with_diseases` loop (floats modelled as
exact rationals). -/
def profileResult (user : UserData) (nd : String × Profile) :
    Except String MatchResult := do
  let symptom_match := calculate_symptom_match user.symptoms nd.2.symptoms
  let test_match ← calculate_test_match user.test_results nd.2.test_results
  let basic_match := calculate_basic_info_match user.basic_info nd.2.basic_info
  .ok { disease := nd.1,
        overall_match := symptom_match * 0.5 + test_match * 0.3 + basic_match * 0.2,
        symptom_match := symptom_match,
        test_match := test_match,
        basic_match := basic_match }
/-- The unsorted result list, in catalog declaration order. -/
def rawResults (user : UserData) : List (String × Profile) →
    Except String (List MatchResult)
  | [] => .ok []
  | nd :: rest => do
    let r ← profileResult user nd
    let rs ← rawResults user rest
    .ok (r :: rs)
/-- The descending-by-`overall_match` order used by
`results.sort(key=..., reverse=True)`. -/
def byOverallDesc (a b : MatchResult) : Prop := b.overall_match ≤ a.overall_match
instance : DecidableRel byOverallDesc := fun a b =>
  inferInstanceAs (Decidable (b.overall_match ≤ a.overall_match))
/-- The `compare_with_diseases`: score every catalog profile, then sort
descending by overall match. Python's `list.sort` is stable; a stable
sort's output is determined by the key order, so the (stable) insertion
sort produces the identical list. -/
def compare_with_diseases (user : UserData) : Except String (List MatchResult) := do
  let results ← rawResults user PREDEFINED_DISEASES
  .ok (List.insertionSort byOverallDesc results)
/-! ### Rule-based fallback predictor (`MockAnalyzer`) -/
/-- A fallback prediction: disease name, integer confidence, canned
reasoning string. -/
abbrev Prediction := String × ℕ × String
def dengueEntry : Prediction :=
  ("Dengue", 75, "High fever, rash, low platelets, positive dengue test")
def viralFeverEntry : Prediction :=
  ("Viral Fever", 60, "Common flu-like symptoms with normal test results")
def malariaEntry : Prediction :=
  ("Malaria", 70, "Fever with travel history and positive malaria test")
def typhoidEntry : Prediction :=
  ("Typhoid", 65, "Fever with gastrointestinal symptoms and positive test")
def commonColdEntry : Prediction :=
  ("Common Cold", 40, "Mild symptoms, could be various causes")
/-- Python `v < bound` for the platelets check: requires a numeric view,
otherwise `TypeError`. -/
def pyLtNum (v : Value) (bound : ℚ) : Except String Bool :=
  match v.toNum? with
  | some x => .ok (decide (x < bound))
  | Option.none => .error "TypeError: unorderable types"
/-- The Dengue rule guard: the four truthiness tests short-circuit, so
the platelets comparison (default 200000 when the key is absent) is only
evaluated when they all pass. -/
def dengueCond (symptoms test_results : Dict) : Except String Bool :=
  if (dget symptoms "fever").truthy && (dget symptoms "rash").truthy &&
     (dget symptoms "recent_travel").truthy && (dget test_results "Dengue").truthy then
    pyLtNum (dgetD test_results "Platelets" (.num 200000)) 100000
  else .ok false
/-- The Viral Fever rule guard. -/
def viralCond (symptoms test_results : Dict) : Bool :=
  (dget symptoms "fever").truthy && (dget symptoms "fatigue").truthy &&
  (dget symptoms "headache").truthy && !(dget test_results "Dengue").truthy &&
  !(dget test_results "Malaria").truthy
/-- The Malaria rule guard. -/
def malariaCond (symptoms test_results : Dict) : Bool :=
  (dget symptoms "fever").truthy && (dget symptoms "recent_travel").truthy &&
  (dget test_results "Malaria").truthy
/-- The Typhoid rule guard. -/
def typhoidCond (symptoms test_results : Dict) : Bool :=
  (dget symptoms "fever").truthy && (dget symptoms "nausea").truthy &&
  (dget symptoms "diarrhea").truthy && (dget test_results "Typhoid").truthy
/-- The appended entries of the four rule `if`s, in source order. -/
def ruleEntries (d v m t : Bool) : List Prediction :=
  (if d then [dengueEntry] else []) ++ (if v then [viralFeverEntry] else []) ++
  (if m then [malariaEntry] else []) ++ (if t then [typhoidEntry] else [])
/-- The `MockAnalyzer._get_rule_based_predictions`: collect every matching
rule's entry, falling back to Common Cold when none matched. -/
def get_rule_based_predictions (symptoms test_results _basic_info : Dict) :
    Except String (List Prediction) := do
  let d ← dengueCond symptoms test_results
  let diseases := ruleEntries d (viralCond symptoms test_results)
    (malariaCond symptoms test_results) (typhoidCond symptoms test_results)
  .ok (if diseases = [] then [commonColdEntry] else diseases)
/-- The descending-confidence order of `diseases.sort(key=lambda x: x[1],
reverse=True)`. -/
def byConfidenceDesc (a b : Prediction) : Prop := b.2.1 ≤ a.2.1
instance : DecidableRel byConfidenceDesc := fun a b =>
  inferInstanceAs (Decidable (b.2.1 ≤ a.2.1))
/-- The spec's `fallback_predict`: the rule-based predictions sorted
descending by confidence with the top three kept, exactly as
`MockAnalyzer.get_mock_analysis` sorts and then renders `diseases[:3]`.
(Stable sort modelled by the stable insertion sort, as for the scorer.) -/
def fallback_predict (symptoms test_results basic_info : Dict) :
    Except String (List Prediction) := do
  let diseases ← get_rule_based_predictions symptoms test_results basic_info
  .ok ((List.insertionSort byConfidenceDesc diseases).take 3)
/-! ### Model of `SymptomAnalyzer.analyze_symptoms` -/
/-- The error outcomes of `analyze_symptoms`: a re-raised
`ValidationError`, the `EmergencyDetectedError` control signal (whose
Python message is rendered from the reasons list; the constructor
carries the reasons themselves), and `DataProcessingError` for anything
else. -/
inductive AnalysisError where
  | validation (msg : String)
  | emergencyDetected (reasons : List String)
  | dataProcessing (msg : String)
deriving DecidableEq, Repr
/-- The `SymptomAnalyzer.analyze_symptoms`: validate, check for an emergency
(raising `EmergencyDetectedError` before any generation), then delegate
to the external text generator `gen` (`llm_service.generate_analysis`,
an opaque collaborator; its fragment stream is modelled as the eager
list of fragments, its failure as a wrapped `DataProcessingError`). -/
def analyze_symptoms (gen : UserData → Except String (List String))
    (user_data : RawData) : Except AnalysisError (List String) :=
  match validate_user_data user_data with
  | .error e => .error (.validation e)
  | .ok validated =>
    match check_emergency validated with
    | .error e => .error (.dataProcessing e)
    | .ok emergency =>
      if emergency.is_emergency then .error (.emergencyDetected emergency.reasons)
      else
        match gen validated with
        | .ok chunks => .ok chunks
        | .error e => .error (.dataProcessing e)

/-- The canonical record produced for empty raw input: every optional
field null, every flag false. -/
def emptyCanonicalRecord : UserData :=
  { basic_info := [("age", .none), ("gender", .none), ("weight", .none),
                   ("temperature", .none), ("duration", .none),
                   ("chronic_diseases", .bool false)],
    symptoms := [("fever", .bool false), ("fatigue", .bool false),
                 ("cough", .bool false), ("headache", .bool false),
                 ("body_pain", .bool false), ("nausea", .bool false),
                 ("vomiting", .bool false), ("diarrhea", .bool false),
                 ("rash", .bool false), ("sore_throat", .bool false),
                 ("shortness_of_breath", .bool false), ("chest_pain", .bool false),
                 ("confusion", .bool false), ("recent_travel", .bool false),
                 ("medication", .bool false), ("appetite_change", .bool false),
                 ("urine_change", .bool false), ("weight_loss", .bool false),
                 ("night_sweats", .bool false), ("exposure", .bool false),
                 ("fever_duration", .none), ("cough_type", .none)],
    test_results := [("WBC", .none), ("Platelets", .none), ("Hemoglobin", .none),
                     ("Blood_Sugar", .none), ("ALT", .none), ("Creatinine", .none),
                     ("Malaria", .none), ("Dengue", .none), ("Typhoid", .none)] }

/-- A raw input supplying `fever_duration` without setting `fever`. -/
def rawDecoupled : RawData :=
  { basic_info := [], symptoms := [("fever_duration", .num 3)], test_results := [] }

/-- The canonical record `validate_user_data` produces for
`rawDecoupled`: `fever` is false while `fever_duration` is 3. -/
def recDecoupled : UserData :=
  { basic_info := [("age", .none), ("gender", .none), ("weight", .none),
                   ("temperature", .none), ("duration", .none),
                   ("chronic_diseases", .bool false)],
    symptoms := [("fever", .bool false), ("fatigue", .bool false),
                 ("cough", .bool false), ("headache", .bool false),
                 ("body_pain", .bool false), ("nausea", .bool false),
                 ("vomiting", .bool false), ("diarrhea", .bool false),
                 ("rash", .bool false), ("sore_throat", .bool false),
                 ("shortness_of_breath", .bool false), ("chest_pain", .bool false),
                 ("confusion", .bool false), ("recent_travel", .bool false),
                 ("medication", .bool false), ("appetite_change", .bool false),
                 ("urine_change", .bool false), ("weight_loss", .bool false),
                 ("night_sweats", .bool false), ("exposure", .bool false),
                 ("fever_duration", .num 3), ("cough_type", .none)],
    test_results := [("WBC", .none), ("Platelets", .none), ("Hemoglobin", .none),
                     ("Blood_Sugar", .none), ("ALT", .none), ("Creatinine", .none),
                     ("Malaria", .none), ("Dengue", .none), ("Typhoid", .none)] }

/-- A raw input supplying `cough_type` without setting `cough`. -/
def rawDecoupledCough : RawData :=
  { basic_info := [], symptoms := [("cough_type", .str "dry")], test_results := [] }

/-- The canonical record `validate_user_data` produces for
`rawDecoupledCough`: `cough` is false while `cough_type` is "dry". -/
def recDecoupledCough : UserData :=
  { basic_info := [("age", .none), ("gender", .none), ("weight", .none),
                   ("temperature", .none), ("duration", .none),
                   ("chronic_diseases", .bool false)],
    symptoms := [("fever", .bool false), ("fatigue", .bool false),
                 ("cough", .bool false), ("headache", .bool false),
                 ("body_pain", .bool false), ("nausea", .bool false),
                 ("vomiting", .bool false), ("diarrhea", .bool false),
                 ("rash", .bool false), ("sore_throat", .bool false),
                 ("shortness_of_breath", .bool false), ("chest_pain", .bool false),
                 ("confusion", .bool false), ("recent_travel", .bool false),
                 ("medication", .bool false), ("appetite_change", .bool false),
                 ("urine_change", .bool false), ("weight_loss", .bool false),
                 ("night_sweats", .bool false), ("exposure", .bool false),
                 ("fever_duration", .none), ("cough_type", .str "dry")],
    test_results := [("WBC", .none), ("Platelets", .none), ("Hemoglobin", .none),
                     ("Blood_Sugar", .none), ("ALT", .none), ("Creatinine", .none),
                     ("Malaria", .none), ("Dengue", .none), ("Typhoid", .none)] }

/-! ### Theorems -/

theorem except_bind_ok {α β : Type} (a : α) (f : α → Except String β) :
    (Except.ok a : Except String α) >>= f = f a := rfl
theorem except_bind_err {α β : Type} (e : String) (f : α → Except String β) :
    (Except.error e : Except String α) >>= f = .error e := rfl
theorem lookupField_temperature (sy bi : Dict) :
    lookupField "temperature" sy bi = dget bi "temperature" := by
  have h : splitAtDot "temperature".data = Option.none := by decide
  simp [lookupField, h]
theorem lookupField_confusion (sy bi : Dict) :
    lookupField "symptoms.confusion" sy bi = dget sy "confusion" := by
  have h : splitAtDot "symptoms.confusion".data =
      some ("symptoms".data, "confusion".data) := by decide
  simp [lookupField, h]
theorem lookupField_fever (sy bi : Dict) :
    lookupField "symptoms.fever" sy bi = dget sy "fever" := by
  have h : splitAtDot "symptoms.fever".data =
      some ("symptoms".data, "fever".data) := by decide
  simp [lookupField, h]
theorem lookupField_sob (sy bi : Dict) :
    lookupField "symptoms.shortness_of_breath" sy bi =
      dget sy "shortness_of_breath" := by
  have h : splitAtDot "symptoms.shortness_of_breath".data =
      some ("symptoms".data, "shortness_of_breath".data) := by decide
  simp [lookupField, h]
theorem lookupField_chest_pain (sy bi : Dict) :
    lookupField "symptoms.chest_pain" sy bi = dget sy "chest_pain" := by
  have h : splitAtDot "symptoms.chest_pain".data =
      some ("symptoms".data, "chest_pain".data) := by decide
  simp [lookupField, h]
theorem eval_rule1 (sy bi : Dict) (t : Option ℚ)
    (ht : dget bi "temperature" = t.elim Value.none Value.num) :
    evaluate_conditions [("temperature", ">", .num 40)] sy bi =
      .ok (t.elim false (fun q => decide (q > 40))) := by
  cases t with
  | none =>
    simp [evaluate_conditions, lookupField_temperature, ht, check_condition,
      except_bind_ok]
  | some q =>
    by_cases hq : (40 : ℚ) < q <;>
      simp [evaluate_conditions, lookupField_temperature, ht, check_condition,
        pyCmp, Value.toNum?, except_bind_ok, hq]
theorem eval_rule2 (sy bi : Dict) (c f : Bool)
    (hc : dget sy "confusion" = .bool c) (hf : dget sy "fever" = .bool f) :
    evaluate_conditions
      [("symptoms.confusion", "==", .bool true), ("symptoms.fever", "==", .bool true)]
      sy bi = .ok (c && f) := by
  cases c <;> cases f <;>
    simp [evaluate_conditions, lookupField_confusion, lookupField_fever, hc, hf,
      check_condition, pyEq, Value.toNum?, except_bind_ok]
theorem eval_rule3 (sy bi : Dict) (sob cp : Bool)
    (hsob : dget sy "shortness_of_breath" = .bool sob)
    (hcp : dget sy "chest_pain" = .bool cp) :
    evaluate_conditions
      [("symptoms.shortness_of_breath", "==", .bool true),
       ("symptoms.chest_pain", "==", .bool true)]
      sy bi = .ok (sob && cp) := by
  cases sob <;> cases cp <;>
    simp [evaluate_conditions, lookupField_sob, lookupField_chest_pain, hsob, hcp,
      check_condition, pyEq, Value.toNum?, except_bind_ok]
theorem eval_eq_conds_ok (conds : List (String × String × Value)) (sy bi : Dict)
    (h : ∀ triple ∈ conds, triple.2.1 = "==") :
    ∃ b, evaluate_conditions conds sy bi = .ok b := by
  induction conds with
  | nil => exact ⟨true, rfl⟩
  | cons hd tl ih =>
    obtain ⟨fp, op, ev⟩ := hd
    have hop : op = "==" := h (fp, op, ev) (List.mem_cons_self _ _)
    subst hop
    obtain ⟨b, hb⟩ := ih (fun t ht => h t (List.mem_cons_of_mem _ ht))
    refine ⟨if pyEq (lookupField fp sy bi) ev then b else false, ?_⟩
    show (do
      let ok ← check_condition (lookupField fp sy bi) "==" ev
      if ok then evaluate_conditions tl sy bi else .ok false) = _
    have : check_condition (lookupField fp sy bi) "==" ev =
        .ok (pyEq (lookupField fp sy bi) ev) := rfl
    rw [this, except_bind_ok]
    by_cases hp : pyEq (lookupField fp sy bi) ev = true <;> simp [hp, hb]
/-- C1: for every canonical record (temperature a number or null, the four
involved symptom flags booleans), `check_emergency` reports an emergency
iff at least one of the three fixed rules holds, and the reasons list is
exactly the reason strings of the rules that hold, in rule order. -/
theorem check_emergency_rule_semantics (u : UserData) (t : Option ℚ)
    (c f sob cp : Bool)
    (ht : dget u.basic_info "temperature" = t.elim Value.none Value.num)
    (hc : dget u.symptoms "confusion" = .bool c)
    (hf : dget u.symptoms "fever" = .bool f)
    (hsob : dget u.symptoms "shortness_of_breath" = .bool sob)
    (hcp : dget u.symptoms "chest_pain" = .bool cp) :
    check_emergency u = .ok {
      is_emergency :=
        (t.elim false fun q => decide (q > 40)) || (c && f) || (sob && cp),
      reasons :=
        (if (t.elim false fun q => decide (q > 40)) then ["High fever (>40°C)"]
         else []) ++
        (if c && f then ["Fever with confusion"] else []) ++
        (if sob && cp then ["Shortness of breath with chest pain"] else []),
      message :=
        if (t.elim false fun q => decide (q > 40)) || (c && f) || (sob && cp)
        then "Seek immediate medical attention" else "" } := by
  have h1 := eval_rule1 u.symptoms u.basic_info t ht
  have h2 := eval_rule2 u.symptoms u.basic_info c f hc hf
  have h3 := eval_rule3 u.symptoms u.basic_info sob cp hsob hcp
  simp only [check_emergency, EMERGENCY_RULES, collectReasons, h1, h2, h3,
    except_bind_ok]
  generalize (t.elim false fun q => decide (q > 40)) = r1
  cases r1 <;> cases c <;> cases f <;> cases sob <;> cases cp <;> rfl
theorem check_emergency_rule_semantics_witness :
    check_emergency
      { basic_info := [("temperature", .num 41)],
        symptoms := [("confusion", .bool false), ("fever", .bool true),
                     ("shortness_of_breath", .bool false),
                     ("chest_pain", .bool false)],
        test_results := [] } =
      .ok { is_emergency := true,
            reasons := ["High fever (>40°C)"],
            message := "Seek immediate medical attention" } := by
  rw [check_emergency_rule_semantics
    { basic_info := [("temperature", .num 41)],
      symptoms := [("confusion", .bool false), ("fever", .bool true),
                   ("shortness_of_breath", .bool false),
                   ("chest_pain", .bool false)],
      test_results := [] }
    (some 41) false true false false rfl rfl rfl rfl rfl]
  norm_num
/-- C2: ordering comparisons on a null/missing field evaluate to `false`
rather than raising, so `check_emergency` on a record whose temperature is
null or missing returns a normal result without the high-fever reason,
whatever the symptom values are. -/
theorem check_emergency_null_safe (u : UserData)
    (ht : dget u.basic_info "temperature" = .none) :
    (∀ e, check_condition .none ">" e = .ok false) ∧
    (∀ e, check_condition .none "<" e = .ok false) ∧
    (∀ e, check_condition .none ">=" e = .ok false) ∧
    (∀ e, check_condition .none "<=" e = .ok false) ∧
    ∃ a, check_emergency u = .ok a ∧ "High fever (>40°C)" ∉ a.reasons := by
  refine ⟨fun e => rfl, fun e => rfl, fun e => rfl, fun e => rfl, ?_⟩
  have h1 := eval_rule1 u.symptoms u.basic_info Option.none ht
  obtain ⟨b2, hb2⟩ := eval_eq_conds_ok
    [("symptoms.confusion", "==", .bool true),
     ("symptoms.fever", "==", .bool true)] u.symptoms u.basic_info
    (by intro t ht; fin_cases ht <;> rfl)
  obtain ⟨b3, hb3⟩ := eval_eq_conds_ok
    [("symptoms.shortness_of_breath", "==", .bool true),
     ("symptoms.chest_pain", "==", .bool true)] u.symptoms u.basic_info
    (by intro t ht; fin_cases ht <;> rfl)
  have hce : check_emergency u = .ok
      { is_emergency := b2 || b3,
        reasons := (if b2 then ["Fever with confusion"] else []) ++
                   (if b3 then ["Shortness of breath with chest pain"] else []),
        message := if b2 || b3 then "Seek immediate medical attention" else "" } := by
    simp only [check_emergency, EMERGENCY_RULES, collectReasons, h1, hb2, hb3,
      except_bind_ok]
    cases b2 <;> cases b3 <;> rfl
  exact ⟨_, hce, by cases b2 <;> cases b3 <;> simp⟩
theorem validate_age_shape {x : Value} {o : Option ℤ}
    (h : validate_age x = .ok o) :
    o = Option.none ∨ ∃ n, o = some n ∧ MIN_AGE ≤ n ∧ n ≤ MAX_AGE := by
  unfold validate_age at h
  by_cases h0 : isNoneOrEmpty x = true
  · rw [if_pos h0] at h
    injection h with h'
    exact Or.inl h'.symm
  · rw [if_neg h0] at h
    cases hq : pyFloat x with
    | none =>
      simp only [hq] at h
      exact absurd h (by simp)
    | some q =>
      simp only [hq] at h
      by_cases hr : MIN_AGE ≤ pyInt q ∧ pyInt q ≤ MAX_AGE
      · rw [if_pos hr] at h
        injection h with h'
        exact Or.inr ⟨pyInt q, h'.symm, hr⟩
      · rw [if_neg hr] at h
        exact absurd h (by simp)
theorem validate_weight_shape {x : Value} {o : Option ℚ}
    (h : validate_weight x = .ok o) :
    o = Option.none ∨ ∃ q, o = some q ∧ MIN_WEIGHT ≤ q ∧ q ≤ MAX_WEIGHT := by
  unfold validate_weight at h
  by_cases h0 : isNoneOrEmpty x = true
  · rw [if_pos h0] at h
    injection h with h'
    exact Or.inl h'.symm
  · rw [if_neg h0] at h
    cases hq : pyFloat x with
    | none =>
      simp only [hq] at h
      exact absurd h (by simp)
    | some q =>
      simp only [hq] at h
      by_cases hr : MIN_WEIGHT ≤ q ∧ q ≤ MAX_WEIGHT
      · rw [if_pos hr] at h
        injection h with h'
        exact Or.inr ⟨q, h'.symm, hr⟩
      · rw [if_neg hr] at h
        exact absurd h (by simp)
theorem validate_temperature_shape {x : Value} {o : Option ℚ}
    (h : validate_temperature x = .ok o) :
    o = Option.none ∨ ∃ q, o = some q ∧ MIN_TEMPERATURE ≤ q ∧ q ≤ MAX_TEMPERATURE := by
  unfold validate_temperature at h
  by_cases h0 : isNoneOrEmpty x = true
  · rw [if_pos h0] at h
    injection h with h'
    exact Or.inl h'.symm
  · rw [if_neg h0] at h
    cases hq : pyFloat x with
    | none =>
      simp only [hq] at h
      exact absurd h (by simp)
    | some q =>
      simp only [hq] at h
      by_cases hr : MIN_TEMPERATURE ≤ q ∧ q ≤ MAX_TEMPERATURE
      · rw [if_pos hr] at h
        injection h with h'
        exact Or.inr ⟨q, h'.symm, hr⟩
      · rw [if_neg hr] at h
        exact absurd h (by simp)
theorem validate_gender_shape {x : Value} {o : Option String}
    (h : validate_gender x = .ok o) :
    o = Option.none ∨ o = some "M" ∨ o = some "F" := by
  unfold validate_gender at h
  by_cases h0 : isNoneOrEmpty x = true
  · rw [if_pos h0] at h
    injection h with h'
    exact Or.inl h'.symm
  · rw [if_neg h0] at h
    by_cases hg : strUpper (strTrim (pyStr x)) = "M" ∨ strUpper (strTrim (pyStr x)) = "F"
    · rw [if_pos hg] at h
      injection h with h'
      rcases hg with hg | hg
      · exact Or.inr (Or.inl (by rw [← h', hg]))
      · exact Or.inr (Or.inr (by rw [← h', hg]))
    · rw [if_neg hg] at h
      exact absurd h (by simp)
theorem validate_cough_type_shape {x : Value} {o : Option String}
    (h : validate_cough_type x = .ok o) :
    o = Option.none ∨ o = some "dry" ∨ o = some "productive" := by
  unfold validate_cough_type at h
  by_cases h0 : isNoneOrEmpty x = true
  · rw [if_pos h0] at h
    injection h with h'
    exact Or.inl h'.symm
  · rw [if_neg h0] at h
    by_cases hg : strLower (strTrim (pyStr x)) = "dry" ∨
        strLower (strTrim (pyStr x)) = "productive"
    · rw [if_pos hg] at h
      injection h with h'
      rcases hg with hg | hg
      · exact Or.inr (Or.inl (by rw [← h', hg]))
      · exact Or.inr (Or.inr (by rw [← h', hg]))
    · rw [if_neg hg] at h
      exact absurd h (by simp)
theorem validate_test_result_bool_shape {x : Value} {name : String} {w : Value}
    (hname : name = "Malaria" ∨ name = "Dengue" ∨ name = "Typhoid")
    (h : validate_test_result x name = .ok w) :
    w = .none ∨ ∃ b, w = .bool b := by
  unfold validate_test_result at h
  by_cases h0 : isNoneOrEmpty x = true
  · rw [if_pos h0] at h
    injection h with h'
    exact Or.inl h'.symm
  · rw [if_neg h0, if_pos hname] at h
    cases x with
    | str s =>
      simp only at h
      by_cases hp : strLower (strTrim s) = "positive" ∨ strLower (strTrim s) = "true" ∨
          strLower (strTrim s) = "1" ∨ strLower (strTrim s) = "yes"
      · rw [if_pos hp] at h
        injection h with h'
        exact Or.inr ⟨true, h'.symm⟩
      · rw [if_neg hp] at h
        by_cases hn : strLower (strTrim s) = "negative" ∨ strLower (strTrim s) = "false" ∨
            strLower (strTrim s) = "0" ∨ strLower (strTrim s) = "no"
        · rw [if_pos hn] at h
          injection h with h'
          exact Or.inr ⟨false, h'.symm⟩
        · rw [if_neg hn] at h
          exact absurd h (by simp)
    | bool b =>
      simp only at h
      injection h with h'
      exact Or.inr ⟨b, h'.symm⟩
    | none =>
      simp only at h
      exact absurd h (by simp)
    | num q =>
      simp only at h
      exact absurd h (by simp)
theorem validate_test_result_num_shape {x : Value} {name : String} {w : Value}
    (hname : ¬(name = "Malaria" ∨ name = "Dengue" ∨ name = "Typhoid"))
    (h : validate_test_result x name = .ok w) :
    w = .none ∨ ∃ q : ℚ, w = .num q := by
  unfold validate_test_result at h
  by_cases h0 : isNoneOrEmpty x = true
  · rw [if_pos h0] at h
    injection h with h'
    exact Or.inl h'.symm
  · rw [if_neg h0, if_neg hname] at h
    cases hq : pyFloat x with
    | none =>
      simp only [hq] at h
      exact absurd h (by simp)
    | some q =>
      simp only [hq] at h
      injection h with h'
      exact Or.inr ⟨q, h'.symm⟩
theorem lookup_mem {k : String} {v : Value} :
    ∀ {d : Dict}, List.lookup k d = some v → (k, v) ∈ d := by
  intro d
  induction d with
  | nil => intro h; exact absurd h (by simp [List.lookup])
  | cons hd tl ih =>
    obtain ⟨a, b⟩ := hd
    intro h
    rw [List.lookup] at h
    cases hbeq : (k == a) with
    | true =>
      rw [hbeq] at h
      have h2 : some b = some v := h
      have h3 : b = v := by injection h2
      have h1 : k = a := by simpa using hbeq
      subst h3
      subst h1
      exact List.mem_cons_self _ _
    | false =>
      rw [hbeq] at h
      exact List.mem_cons_of_mem _ (ih h)
theorem calcSymptomCounts_le (user : Dict) :
    ∀ ds : List (String × Value),
      (calcSymptomCounts user ds).1 ≤ (calcSymptomCounts user ds).2 := by
  intro ds
  induction ds with
  | nil => simp [calcSymptomCounts]
  | cons hd tl ih =>
    obtain ⟨k, e⟩ := hd
    unfold calcSymptomCounts
    cases h : List.lookup k user with
    | none => simpa using ih
    | some v =>
      rcases hmt : calcSymptomCounts user tl with ⟨m, t⟩
      rw [hmt] at ih
      by_cases hp : pyEq v e = true <;> simp [hp] <;> omega
theorem ratio_bounds (m t : ℕ) (h : m ≤ t) :
    0 ≤ (if 0 < t then (m : ℚ) / (t : ℚ) else 0) ∧
    (if 0 < t then (m : ℚ) / (t : ℚ) else 0) ≤ 1 := by
  by_cases ht : 0 < t
  · rw [if_pos ht]
    have htq : (0 : ℚ) < (t : ℚ) := by exact_mod_cast ht
    constructor
    · positivity
    · rw [div_le_one htq]
      exact_mod_cast h
  · simp [ht]
theorem calculate_symptom_match_bounds (user ds : Dict) :
    0 ≤ calculate_symptom_match user ds ∧ calculate_symptom_match user ds ≤ 1 := by
  unfold calculate_symptom_match
  rcases hmt : calcSymptomCounts user ds with ⟨m, t⟩
  have := calcSymptomCounts_le user ds
  rw [hmt] at this
  exact ratio_bounds m t this
theorem toNum_of_not_str {v : Value} (hs : v.isStr = false) (hn : v ≠ .none) :
    ∃ x, v.toNum? = some x := by
  cases v with
  | none => exact absurd rfl hn
  | bool b => exact ⟨if b then 1 else 0, rfl⟩
  | num q => exact ⟨q, rfl⟩
  | str s => exact absurd hs (by simp [Value.isStr])
theorem calcTestCounts_ok (user : Dict)
    (hstr : ∀ kv ∈ user, Value.isStr kv.2 = false) :
    ∀ es : List (String × Expected),
      ∃ m t, calcTestCounts user es = .ok (m, t) ∧ m ≤ t := by
  intro es
  induction es with
  | nil => exact ⟨0, 0, rfl, le_refl _⟩
  | cons hd tl ih =>
    obtain ⟨k, e⟩ := hd
    obtain ⟨m, t, hmt, hle⟩ := ih
    cases h : List.lookup k user with
    | none =>
      refine ⟨m, t, ?_, hle⟩
      simp [calcTestCounts, h, hmt]
    | some v =>
      by_cases hv : v = .none
      · refine ⟨m, t, ?_, hle⟩
        simp [calcTestCounts, h, hv, hmt]
      · obtain ⟨x, hx⟩ :=
          toNum_of_not_str (hstr (k, v) (lookup_mem h)) hv
        cases e with
        | range lo hi =>
          have hir : inRange lo hi v = .ok (decide (lo ≤ x) && decide (x ≤ hi)) := by
            unfold inRange; rw [hx]
          refine ⟨if decide (lo ≤ x) && decide (x ≤ hi) then m + 1 else m, t + 1, ?_, ?_⟩
          · simp [calcTestCounts, h, hv, hir, hmt]
          · by_cases hinc : (decide (lo ≤ x) && decide (x ≤ hi)) = true <;>
              simp [hinc] <;> omega
        | exact ev =>
          refine ⟨if pyEq v ev then m + 1 else m, t + 1, ?_, ?_⟩
          · simp [calcTestCounts, h, hv, hmt]
          · by_cases hinc : pyEq v ev = true <;> simp [hinc] <;> omega
theorem calcBasicCounts_le (user : Dict) :
    ∀ ds : List (String × Expected),
      (calcBasicCounts user ds).1 ≤ (calcBasicCounts user ds).2 := by
  intro ds
  induction ds with
  | nil => simp [calcBasicCounts]
  | cons hd tl ih =>
    obtain ⟨k, e⟩ := hd
    rcases hmt : calcBasicCounts user tl with ⟨m, t⟩
    rw [hmt] at ih
    cases h : List.lookup k user with
    | none => simp [calcBasicCounts, h, hmt, ih]
    | some v =>
      by_cases hv : v = .none
      · simp [calcBasicCounts, h, hv, hmt, ih]
      · cases e with
        | range lo hi =>
          cases hb : basicNum v with
          | none => simp [calcBasicCounts, h, hv, hb, hmt, ih]
          | some x =>
            by_cases hin : lo ≤ x ∧ x ≤ hi <;>
              simp [calcBasicCounts, h, hv, hb, hmt, hin] <;> omega
        | exact ev =>
          by_cases hp : pyEq v ev = true <;>
            simp [calcBasicCounts, h, hv, hmt, hp] <;> omega
theorem calculate_basic_info_match_bounds (user : Dict)
    (ds : List (String × Expected)) :
    0 ≤ calculate_basic_info_match user ds ∧
    calculate_basic_info_match user ds ≤ 1 := by
  unfold calculate_basic_info_match
  rcases hmt : calcBasicCounts user ds with ⟨m, t⟩
  have := calcBasicCounts_le user ds
  rw [hmt] at this
  exact ratio_bounds m t this
theorem calcSymptomCounts_disjoint (user : Dict) :
    ∀ ds : List (String × Value),
      (∀ kv ∈ ds, List.lookup kv.1 user = Option.none) →
      calcSymptomCounts user ds = (0, 0) := by
  intro ds
  induction ds with
  | nil => intro _; rfl
  | cons hd tl ih =>
    intro hnone
    obtain ⟨k, e⟩ := hd
    unfold calcSymptomCounts
    rw [hnone (k, e) (List.mem_cons_self _ _)]
    exact ih fun kv hkv => hnone kv (List.mem_cons_of_mem _ hkv)
theorem calculate_test_match_ok (user : Dict)
    (hstr : ∀ kv ∈ user, Value.isStr kv.2 = false)
    (es : List (String × Expected)) :
    ∃ tm, calculate_test_match user es = .ok tm ∧ 0 ≤ tm ∧ tm ≤ 1 := by
  obtain ⟨m, t, hmt, hle⟩ := calcTestCounts_ok user hstr es
  refine ⟨if 0 < t then (m : ℚ) / (t : ℚ) else 0, ?_, ratio_bounds m t hle⟩
  simp [calculate_test_match, hmt, except_bind_ok]
theorem calcBasicCounts_skip (user : Dict) (k : String) (lo hi : ℚ)
    (rest : List (String × Expected)) (s : String)
    (hl : List.lookup k user = some (.str s))
    (hp : parsePyFloat s = Option.none) :
    calcBasicCounts user ((k, .range lo hi) :: rest) = calcBasicCounts user rest := by
  rcases hmt : calcBasicCounts user rest with ⟨m, t⟩
  simp [calcBasicCounts, hl, hmt, basicNum, hp]
theorem weighted_sum_bounds {a b c : ℚ}
    (ha : 0 ≤ a) (ha1 : a ≤ 1) (hb : 0 ≤ b) (hb1 : b ≤ 1)
    (hc : 0 ≤ c) (hc1 : c ≤ 1) :
    0 ≤ a * 0.5 + b * 0.3 + c * 0.2 ∧ a * 0.5 + b * 0.3 + c * 0.2 ≤ 1 := by
  constructor <;> nlinarith
/-- C5: for every user record (with no stray string values among the test
results, which is what validation guarantees) and every catalog profile,
all three sub-scores and the weighted overall score lie in [0,1]; a
record sharing no keys with the profile's expected-symptom map scores
symptom match 0 rather than failing; and a failed numeric conversion in
the vitals pass drops that single check from both counters, leaving the
ratio of the remaining checks. -/
theorem match_scores_bounded (u : UserData) (name : String) (p : Profile)
    (_hp : (name, p) ∈ PREDEFINED_DISEASES)
    (hstr : ∀ kv ∈ u.test_results, Value.isStr kv.2 = false) :
    ∃ tm, calculate_test_match u.test_results p.test_results = .ok tm ∧
      (0 ≤ calculate_symptom_match u.symptoms p.symptoms ∧
       calculate_symptom_match u.symptoms p.symptoms ≤ 1) ∧
      (0 ≤ tm ∧ tm ≤ 1) ∧
      (0 ≤ calculate_basic_info_match u.basic_info p.basic_info ∧
       calculate_basic_info_match u.basic_info p.basic_info ≤ 1) ∧
      (0 ≤ calculate_symptom_match u.symptoms p.symptoms * 0.5 + tm * 0.3 +
           calculate_basic_info_match u.basic_info p.basic_info * 0.2 ∧
       calculate_symptom_match u.symptoms p.symptoms * 0.5 + tm * 0.3 +
           calculate_basic_info_match u.basic_info p.basic_info * 0.2 ≤ 1) ∧
      ((∀ kv ∈ p.symptoms, List.lookup kv.1 u.symptoms = Option.none) →
        calculate_symptom_match u.symptoms p.symptoms = 0) ∧
      (∀ (k : String) (lo hi : ℚ) (rest : List (String × Expected)) (s : String),
        List.lookup k u.basic_info = some (.str s) →
        parsePyFloat s = Option.none →
        calculate_basic_info_match u.basic_info ((k, .range lo hi) :: rest) =
          calculate_basic_info_match u.basic_info rest) := by
  obtain ⟨tm, htm, htm0, htm1⟩ := calculate_test_match_ok u.test_results hstr p.test_results
  obtain ⟨hs0, hs1⟩ := calculate_symptom_match_bounds u.symptoms p.symptoms
  obtain ⟨hb0, hb1⟩ := calculate_basic_info_match_bounds u.basic_info p.basic_info
  refine ⟨tm, htm, ⟨hs0, hs1⟩, ⟨htm0, htm1⟩, ⟨hb0, hb1⟩,
    weighted_sum_bounds hs0 hs1 htm0 htm1 hb0 hb1, ?_, ?_⟩
  · intro hdisj
    unfold calculate_symptom_match
    rw [calcSymptomCounts_disjoint u.symptoms p.symptoms hdisj]
    rfl
  · intro k lo hi rest s hl hparse
    unfold calculate_basic_info_match
    rw [calcBasicCounts_skip u.basic_info k lo hi rest s hl hparse]
theorem match_scores_bounded_witness :
    (("Viral Fever", viralFeverProfile) ∈ PREDEFINED_DISEASES) ∧
    ∃ tm, calculate_test_match ([] : Dict) viralFeverProfile.test_results = .ok tm ∧
      0 ≤ tm ∧ tm ≤ 1 ∧ calculate_symptom_match ([] : Dict) viralFeverProfile.symptoms = 0 := by
  have hmem : ("Viral Fever", viralFeverProfile) ∈ PREDEFINED_DISEASES :=
    List.mem_cons_self _ _
  obtain ⟨tm, htm, _, ⟨htm0, htm1⟩, _, _, hdisj, _⟩ :=
    match_scores_bounded ⟨[], [], []⟩ "Viral Fever" viralFeverProfile hmem
      (by intro kv hkv; exact absurd hkv (by simp))
  exact ⟨hmem, tm, htm, htm0, htm1, hdisj (by intro kv hkv; rfl)⟩
theorem profileResult_ok (u : UserData) (nd : String × Profile) (r : MatchResult)
    (h : profileResult u nd = .ok r) :
    r.disease = nd.1 ∧
    r.overall_match =
      r.symptom_match * 0.5 + r.test_match * 0.3 + r.basic_match * 0.2 := by
  unfold profileResult at h
  cases ht : calculate_test_match u.test_results nd.2.test_results with
  | error e =>
    rw [ht, except_bind_err] at h
    exact absurd h (by simp)
  | ok tm =>
    rw [ht, except_bind_ok] at h
    injection h with h2
    subst h2
    exact ⟨rfl, rfl⟩
theorem rawResults_ok (u : UserData) :
    ∀ (cat : List (String × Profile)) (rs : List MatchResult),
      rawResults u cat = .ok rs →
      rs.length = cat.length ∧
      rs.map MatchResult.disease = cat.map Prod.fst ∧
      ∀ r ∈ rs, ∃ nd ∈ cat, profileResult u nd = .ok r := by
  intro cat
  induction cat with
  | nil =>
    intro rs h
    have h2 : ([] : List MatchResult) = rs := by
      have h' : (Except.ok [] : Except String (List MatchResult)) = .ok rs := h
      injection h'
    subst h2
    exact ⟨rfl, rfl, by intro r hr; exact absurd hr (by simp)⟩
  | cons nd rest ih =>
    intro rs h
    unfold rawResults at h
    cases hr : profileResult u nd with
    | error e =>
      rw [hr, except_bind_err] at h
      exact absurd h (by simp)
    | ok r0 =>
      rw [hr, except_bind_ok] at h
      cases hrs : rawResults u rest with
      | error e =>
        rw [hrs, except_bind_err] at h
        exact absurd h (by simp)
      | ok rs0 =>
        rw [hrs, except_bind_ok] at h
        injection h with h2
        subst h2
        obtain ⟨hlen, hmap, hmem⟩ := ih rs0 hrs
        refine ⟨by simp [hlen], ?_, ?_⟩
        · simp [hmap, (profileResult_ok u nd r0 hr).1]
        · intro r hrin
          rcases List.mem_cons.mp hrin with h1 | h2
          · exact ⟨nd, List.mem_cons_self _ _, h1 ▸ hr⟩
          · obtain ⟨nd', hnd', hpr⟩ := hmem r h2
            exact ⟨nd', List.mem_cons_of_mem _ hnd', hpr⟩
/-- C4: `compare_with_diseases` returns exactly one result per catalog
profile (all five, no cutoff), each with
`overall = 0.5*symptom + 0.3*test + 0.2*basic`, and the list is sorted
descending by overall match; the sort is the stable sort of the
catalog-order results, so tied scores keep declaration order. -/
theorem compare_with_diseases_ranking (u : UserData) (l : List MatchResult)
    (h : compare_with_diseases u = .ok l) :
    l.length = 5 ∧
    (l.map MatchResult.disease).Perm
      ["Viral Fever", "Dengue", "Typhoid", "Malaria", "COVID-19"] ∧
    (∀ r ∈ l, r.overall_match =
      r.symptom_match * 0.5 + r.test_match * 0.3 + r.basic_match * 0.2) ∧
    l.Pairwise byOverallDesc ∧
    (∀ rs, rawResults u PREDEFINED_DISEASES = .ok rs →
      l = List.insertionSort byOverallDesc rs ∧
      ∀ a b, [a, b].Sublist rs → a.overall_match = b.overall_match →
        [a, b].Sublist l) := by
  unfold compare_with_diseases at h
  cases hr : rawResults u PREDEFINED_DISEASES with
  | error e =>
    rw [hr, except_bind_err] at h
    exact absurd h (by simp)
  | ok rs =>
    rw [hr, except_bind_ok] at h
    injection h with h2
    subst h2
    obtain ⟨hlen, hmap, hmem⟩ := rawResults_ok u PREDEFINED_DISEASES rs hr
    haveI : IsTotal MatchResult byOverallDesc :=
      ⟨fun a b => le_total b.overall_match a.overall_match⟩
    haveI : IsTrans MatchResult byOverallDesc :=
      ⟨fun _ _ _ hab hbc => le_trans hbc hab⟩
    refine ⟨?_, ?_, ?_, ?_, ?_⟩
    · rw [List.length_insertionSort, hlen]; rfl
    · have hperm := (List.perm_insertionSort byOverallDesc rs).map MatchResult.disease
      rw [hmap] at hperm
      exact hperm.trans (by rw [show PREDEFINED_DISEASES.map Prod.fst =
        ["Viral Fever", "Dengue", "Typhoid", "Malaria", "COVID-19"] from rfl])
    · intro r hrin
      rw [List.mem_insertionSort] at hrin
      obtain ⟨nd, _, hpr⟩ := hmem r hrin
      exact (profileResult_ok u nd r hpr).2
    · exact List.sorted_insertionSort byOverallDesc rs
    · intro rs' hrs'
      have heq : rs = rs' := by injection hrs'
      subst heq
      refine ⟨rfl, ?_⟩
      intro a b hab hov
      exact List.pair_sublist_insertionSort
        (show byOverallDesc a b from le_of_eq hov.symm) hab
theorem calcSymptomCounts_empty_user : ∀ ds, calcSymptomCounts [] ds = (0, 0)
  | [] => rfl
  | (_, _) :: tl => calcSymptomCounts_empty_user tl
theorem calcTestCounts_empty_user : ∀ es, calcTestCounts [] es = .ok (0, 0)
  | [] => rfl
  | (_, _) :: tl => calcTestCounts_empty_user tl
theorem calcBasicCounts_empty_user : ∀ ds, calcBasicCounts [] ds = (0, 0)
  | [] => rfl
  | (_, _) :: tl => calcBasicCounts_empty_user tl
theorem profileResult_empty_user (nd : String × Profile) :
    profileResult ⟨[], [], []⟩ nd = .ok ⟨nd.1, 0, 0, 0, 0⟩ := by
  have hs : calculate_symptom_match [] nd.2.symptoms = 0 := by
    unfold calculate_symptom_match
    rw [calcSymptomCounts_empty_user]
    rfl
  have ht : calculate_test_match [] nd.2.test_results = .ok 0 := by
    unfold calculate_test_match
    rw [calcTestCounts_empty_user, except_bind_ok]
    rfl
  have hb : calculate_basic_info_match [] nd.2.basic_info = 0 := by
    unfold calculate_basic_info_match
    rw [calcBasicCounts_empty_user]
    rfl
  unfold profileResult
  rw [show (⟨[], [], []⟩ : UserData).symptoms = [] from rfl] at *
  rw [hs, ht, except_bind_ok, hb]
  norm_num
theorem compare_with_diseases_ranking_witness :
    compare_with_diseases ⟨[], [], []⟩ =
      .ok [⟨"Viral Fever", 0, 0, 0, 0⟩, ⟨"Dengue", 0, 0, 0, 0⟩,
           ⟨"Typhoid", 0, 0, 0, 0⟩, ⟨"Malaria", 0, 0, 0, 0⟩,
           ⟨"COVID-19", 0, 0, 0, 0⟩] ∧
    ([⟨"Viral Fever", 0, 0, 0, 0⟩, ⟨"Dengue", 0, 0, 0, 0⟩,
      ⟨"Typhoid", 0, 0, 0, 0⟩, ⟨"Malaria", 0, 0, 0, 0⟩,
      ⟨"COVID-19", 0, 0, 0, 0⟩] : List MatchResult).length = 5 := by
  have hraw : rawResults ⟨[], [], []⟩ PREDEFINED_DISEASES =
      .ok [⟨"Viral Fever", 0, 0, 0, 0⟩, ⟨"Dengue", 0, 0, 0, 0⟩,
           ⟨"Typhoid", 0, 0, 0, 0⟩, ⟨"Malaria", 0, 0, 0, 0⟩,
           ⟨"COVID-19", 0, 0, 0, 0⟩] := by
    simp [rawResults, PREDEFINED_DISEASES, profileResult_empty_user, except_bind_ok]
  have hf : compare_with_diseases ⟨[], [], []⟩ =
      .ok [⟨"Viral Fever", 0, 0, 0, 0⟩, ⟨"Dengue", 0, 0, 0, 0⟩,
           ⟨"Typhoid", 0, 0, 0, 0⟩, ⟨"Malaria", 0, 0, 0, 0⟩,
           ⟨"COVID-19", 0, 0, 0, 0⟩] := by
    unfold compare_with_diseases
    rw [hraw, except_bind_ok]
    simp [List.insertionSort, List.orderedInsert, byOverallDesc]
  exact ⟨hf, (compare_with_diseases_ranking ⟨[], [], []⟩ _ hf).1⟩
/-- The post-guard shape of `fallback_predict`: with the Dengue guard
evaluated, the result is the sorted, truncated rule-entry list. -/
theorem fallback_predict_inv (s t b : Dict) (l : List Prediction)
    (h : fallback_predict s t b = .ok l) :
    ∃ d, dengueCond s t = .ok d ∧
      l = (List.insertionSort byConfidenceDesc
            (if ruleEntries d (viralCond s t) (malariaCond s t) (typhoidCond s t) = []
             then [commonColdEntry]
             else ruleEntries d (viralCond s t) (malariaCond s t) (typhoidCond s t))).take 3 := by
  unfold fallback_predict get_rule_based_predictions at h
  cases hd : dengueCond s t with
  | error e =>
    rw [hd, except_bind_err, except_bind_err] at h
    exact absurd h (by simp)
  | ok d =>
    rw [hd, except_bind_ok, except_bind_ok] at h
    exact ⟨d, rfl, (Except.ok.injEq _ _ ▸ h).symm⟩
theorem dengue_mem_take_iff : ∀ d v m t : Bool,
    (dengueEntry ∈ (List.insertionSort byConfidenceDesc
       (if ruleEntries d v m t = [] then [commonColdEntry]
        else ruleEntries d v m t)).take 3) ↔ d = true := by decide
theorem dengue_head_take : ∀ v m t : Bool,
    ((List.insertionSort byConfidenceDesc
       (if ruleEntries true v m t = [] then [commonColdEntry]
        else ruleEntries true v m t)).take 3).head? = some dengueEntry := by decide
/-- The Dengue guard result, unpacked: true exactly when the three
symptom flags and the Dengue test are truthy and the platelets value
(200000 when absent) is numeric and below 100000. -/
theorem dengueCond_ok_iff (s t : Dict) (d : Bool) (hd : dengueCond s t = .ok d) :
    d = true ↔
      ((dget s "fever").truthy = true ∧ (dget s "rash").truthy = true ∧
       (dget s "recent_travel").truthy = true ∧ (dget t "Dengue").truthy = true ∧
       ∃ x : ℚ, (dgetD t "Platelets" (.num 200000)).toNum? = some x ∧ x < 100000) := by
  unfold dengueCond at hd
  by_cases hg : ((dget s "fever").truthy && (dget s "rash").truthy &&
      (dget s "recent_travel").truthy && (dget t "Dengue").truthy) = true
  · rw [if_pos hg] at hd
    unfold pyLtNum at hd
    simp only [Bool.and_eq_true] at hg
    obtain ⟨⟨⟨h1, h2⟩, h3⟩, h4⟩ := hg
    cases hx : (dgetD t "Platelets" (.num 200000)).toNum? with
    | none => rw [hx] at hd; exact absurd hd (by simp)
    | some x =>
      rw [hx] at hd
      have hdx : d = decide (x < 100000) := by
        have := Except.ok.injEq (α := Bool) (ε := String) _ _ ▸ hd
        exact this.symm
      subst hdx
      constructor
      · intro hlt
        exact ⟨h1, h2, h3, h4, x, rfl, of_decide_eq_true hlt⟩
      · rintro ⟨-, -, -, -, y, hy, hylt⟩
        injection hy with hxy
        subst hxy
        exact decide_eq_true hylt
  · rw [if_neg hg] at hd
    have hdf : d = false := by
      have := Except.ok.injEq (α := Bool) (ε := String) _ _ ▸ hd
      exact this.symm
    subst hdf
    simp only [Bool.and_eq_true, not_and] at hg
    constructor
    · intro hff; exact absurd hff (by simp)
    · rintro ⟨h1, h2, h3, h4, -, -, -⟩
      exact absurd (hg ⟨⟨h1, h2⟩, h3⟩ h4) (by simp [h4])
/-- C6: the fallback predictor produces the Dengue entry — confidence
exactly 75, reasoning mentioning platelets — exactly when fever, rash and
recent travel are set, the Dengue test is truthy, and the platelets value
(defaulting to 200000 when the key is absent) is numeric and below
100000; when it does, the Dengue entry is first. -/
theorem fallback_dengue_rule (s t b : Dict) (l : List Prediction)
    (h : fallback_predict s t b = .ok l) :
    (dengueEntry ∈ l ↔
      ((dget s "fever").truthy = true ∧ (dget s "rash").truthy = true ∧
       (dget s "recent_travel").truthy = true ∧ (dget t "Dengue").truthy = true ∧
       ∃ x : ℚ, (dgetD t "Platelets" (.num 200000)).toNum? = some x ∧ x < 100000)) ∧
    (dengueEntry ∈ l → l.head? = some dengueEntry) ∧
    dengueEntry = ("Dengue", 75, "High fever, rash, low platelets, positive dengue test") ∧
    "platelets".data <:+: dengueEntry.2.2.data := by
  obtain ⟨d, hd, hl⟩ := fallback_predict_inv s t b l h
  subst hl
  refine ⟨?_, ?_, rfl, ?_⟩
  · exact (dengue_mem_take_iff d _ _ _).trans (dengueCond_ok_iff s t d hd)
  · intro hm
    have hdt : d = true := (dengue_mem_take_iff d _ _ _).mp hm
    subst hdt
    exact dengue_head_take _ _ _
  · exact ⟨"High fever, rash, low ".data, ", positive dengue test".data, by decide⟩
theorem fallback_dengue_rule_witness :
    fallback_predict
      [("fever", .bool true), ("rash", .bool true), ("recent_travel", .bool true)]
      [("Dengue", .bool true), ("Platelets", .num 80000)] [] = .ok [dengueEntry] ∧
    dengueEntry ∈ [dengueEntry] := by
  have hf : fallback_predict
      [("fever", .bool true), ("rash", .bool true), ("recent_travel", .bool true)]
      [("Dengue", .bool true), ("Platelets", .num 80000)] [] = .ok [dengueEntry] := by
    rfl
  refine ⟨hf, ?_⟩
  exact (fallback_dengue_rule _ _ _ _ hf).1.mpr
    ⟨rfl, rfl, rfl, rfl, 80000, rfl, by norm_num⟩
theorem take3_len_le : ∀ d v m t : Bool,
    ((List.insertionSort byConfidenceDesc
       (if ruleEntries d v m t = [] then [commonColdEntry]
        else ruleEntries d v m t)).take 3).length ≤ 3 := by decide
theorem take3_pairwise : ∀ d v m t : Bool,
    ((List.insertionSort byConfidenceDesc
       (if ruleEntries d v m t = [] then [commonColdEntry]
        else ruleEntries d v m t)).take 3).Pairwise byConfidenceDesc := by decide
/-- C7: `fallback_predict` returns at most three entries, sorted
descending by confidence, and when no hand-authored rule matches it
returns exactly the generic Common Cold entry with confidence 40. -/
theorem fallback_top3_sorted (s t b : Dict) (l : List Prediction)
    (h : fallback_predict s t b = .ok l) :
    l.length ≤ 3 ∧ l.Pairwise byConfidenceDesc ∧
    (dengueCond s t = .ok false → viralCond s t = false →
     malariaCond s t = false → typhoidCond s t = false →
     l = [commonColdEntry]) := by
  obtain ⟨d, hd, hl⟩ := fallback_predict_inv s t b l h
  subst hl
  refine ⟨take3_len_le d _ _ _, take3_pairwise d _ _ _, ?_⟩
  intro h0 hv hm ht
  have hdf : d = false := by
    rw [hd] at h0
    exact (Except.ok.injEq (α := Bool) (ε := String) _ _ ▸ h0)
  subst hdf
  rw [hv, hm, ht]
  rfl
theorem fallback_top3_sorted_witness :
    fallback_predict [("cough", .bool true)] [] [] = .ok [commonColdEntry] ∧
    [commonColdEntry].length ≤ 3 ∧
    commonColdEntry = ("Common Cold", 40, "Mild symptoms, could be various causes") := by
  have hf : fallback_predict [("cough", .bool true)] [] [] =
      .ok [commonColdEntry] := rfl
  exact ⟨hf, (fallback_top3_sorted [("cough", .bool true)] [] [] _ hf).1, rfl⟩
/-- C3: on any record whose validation succeeds and on which
`check_emergency` reports an emergency, `analyze_symptoms` yields no
analysis fragments and returns the distinguished emergency outcome
carrying the triggered reasons — whatever the external generator would
have produced. -/
theorem analyze_symptoms_emergency_short_circuit
    (gen : UserData → Except String (List String)) (raw : RawData)
    (v : UserData) (em : EmergencyAlert)
    (hv : validate_user_data raw = .ok v)
    (he : check_emergency v = .ok em)
    (hem : em.is_emergency = true) :
    analyze_symptoms gen raw = .error (.emergencyDetected em.reasons) ∧
    ∀ chunks, analyze_symptoms gen raw ≠ .ok chunks := by
  constructor
  · simp [analyze_symptoms, hv, he, hem]
  · intro chunks
    simp [analyze_symptoms, hv, he, hem]
theorem analyze_symptoms_emergency_short_circuit_witness :
    analyze_symptoms (fun _ => .ok ["analysis text"])
      ⟨[("temperature", .num 41)], [], []⟩ =
      .error (.emergencyDetected ["High fever (>40°C)"]) := by
  exact (analyze_symptoms_emergency_short_circuit (fun _ => .ok ["analysis text"])
    ⟨[("temperature", .num 41)], [], []⟩ _ _ rfl rfl rfl).1
/-! ### Inversion lemmas for composite validation -/

theorem validateBasicInfo_inv (bi d : Dict) (h : validateBasicInfo bi = .ok d) :
    ∃ age gender weight temperature duration chronic,
      validate_age (dget bi "age") = .ok age ∧
      validate_gender (dget bi "gender") = .ok gender ∧
      validate_weight (dget bi "weight") = .ok weight ∧
      validate_temperature (dget bi "temperature") = .ok temperature ∧
      validate_duration (dget bi "duration") = .ok duration ∧
      validate_boolean (dgetD bi "chronic_diseases" (.bool false)) = .ok chronic ∧
      d = [("age", optInt age), ("gender", optStr gender), ("weight", optNum weight),
           ("temperature", optNum temperature), ("duration", optStr duration),
           ("chronic_diseases", .bool chronic)] := by
  unfold validateBasicInfo at h
  cases h1 : validate_age (dget bi "age") with
  | error e => rw [h1, except_bind_err] at h; exact absurd h (by simp)
  | ok age =>
  rw [h1, except_bind_ok] at h
  cases h2 : validate_gender (dget bi "gender") with
  | error e => rw [h2, except_bind_err] at h; exact absurd h (by simp)
  | ok gender =>
  rw [h2, except_bind_ok] at h
  cases h3 : validate_weight (dget bi "weight") with
  | error e => rw [h3, except_bind_err] at h; exact absurd h (by simp)
  | ok weight =>
  rw [h3, except_bind_ok] at h
  cases h4 : validate_temperature (dget bi "temperature") with
  | error e => rw [h4, except_bind_err] at h; exact absurd h (by simp)
  | ok temperature =>
  rw [h4, except_bind_ok] at h
  cases h5 : validate_duration (dget bi "duration") with
  | error e => rw [h5, except_bind_err] at h; exact absurd h (by simp)
  | ok duration =>
  rw [h5, except_bind_ok] at h
  cases h6 : validate_boolean (dgetD bi "chronic_diseases" (.bool false)) with
  | error e => rw [h6, except_bind_err] at h; exact absurd h (by simp)
  | ok chronic =>
  rw [h6, except_bind_ok] at h
  injection h with h7
  exact ⟨age, gender, weight, temperature, duration, chronic,
    rfl, rfl, rfl, rfl, rfl, rfl, h7.symm⟩

theorem validateFlags_inv (sy : Dict) :
    ∀ (names : List String) (d : Dict), validateFlags sy names = .ok d →
      d.map Prod.fst = names ∧ ∀ kv ∈ d, ∃ b, kv.2 = .bool b := by
  intro names
  induction names with
  | nil =>
    intro d h
    have h' : (Except.ok ([] : Dict) : Except String Dict) = .ok d := h
    injection h' with h2
    subst h2
    exact ⟨rfl, by intro kv hkv; exact absurd hkv (by simp)⟩
  | cons n rest ih =>
    intro d h
    unfold validateFlags at h
    cases h1 : validate_boolean (dgetD sy n (.bool false)) with
    | error e => rw [h1, except_bind_err] at h; exact absurd h (by simp)
    | ok b =>
      rw [h1, except_bind_ok] at h
      cases h2 : validateFlags sy rest with
      | error e => rw [h2, except_bind_err] at h; exact absurd h (by simp)
      | ok others =>
        rw [h2, except_bind_ok] at h
        injection h with h3
        subst h3
        obtain ⟨hmap, hvals⟩ := ih others h2
        refine ⟨by simp [hmap], ?_⟩
        intro kv hkv
        rcases List.mem_cons.mp hkv with h4 | h4
        · exact ⟨b, by rw [h4]⟩
        · exact hvals kv h4

theorem validateTests_inv (tr : Dict) :
    ∀ (names : List String) (d : Dict), validateTests tr names = .ok d →
      d.map Prod.fst = names ∧
      ∀ kv ∈ d, validate_test_result (dget tr kv.1) kv.1 = .ok kv.2 := by
  intro names
  induction names with
  | nil =>
    intro d h
    have h' : (Except.ok ([] : Dict) : Except String Dict) = .ok d := h
    injection h' with h2
    subst h2
    exact ⟨rfl, by intro kv hkv; exact absurd hkv (by simp)⟩
  | cons n rest ih =>
    intro d h
    unfold validateTests at h
    cases h1 : validate_test_result (dget tr n) n with
    | error e => rw [h1, except_bind_err] at h; exact absurd h (by simp)
    | ok w =>
      rw [h1, except_bind_ok] at h
      cases h2 : validateTests tr rest with
      | error e => rw [h2, except_bind_err] at h; exact absurd h (by simp)
      | ok others =>
        rw [h2, except_bind_ok] at h
        injection h with h3
        subst h3
        obtain ⟨hmap, hvals⟩ := ih others h2
        refine ⟨by simp [hmap], ?_⟩
        intro kv hkv
        rcases List.mem_cons.mp hkv with h4 | h4
        · subst h4; exact h1
        · exact hvals kv h4

theorem validateSymptoms_inv (sy d : Dict) (h : validateSymptoms sy = .ok d) :
    ∃ flags fd ct,
      validateFlags sy symptomFlagNames = .ok flags ∧
      validate_age (dget sy "fever_duration") = .ok fd ∧
      validate_cough_type (dget sy "cough_type") = .ok ct ∧
      d = flags ++ [("fever_duration", optInt fd), ("cough_type", optStr ct)] := by
  unfold validateSymptoms at h
  cases h1 : validateFlags sy symptomFlagNames with
  | error e => rw [h1, except_bind_err] at h; exact absurd h (by simp)
  | ok flags =>
  rw [h1, except_bind_ok] at h
  cases h2 : validate_age (dget sy "fever_duration") with
  | error e => rw [h2, except_bind_err] at h; exact absurd h (by simp)
  | ok fd =>
  rw [h2, except_bind_ok] at h
  cases h3 : validate_cough_type (dget sy "cough_type") with
  | error e => rw [h3, except_bind_err] at h; exact absurd h (by simp)
  | ok ct =>
  rw [h3, except_bind_ok] at h
  injection h with h4
  exact ⟨flags, fd, ct, rfl, rfl, rfl, h4.symm⟩

theorem validate_user_data_inv (raw : RawData) (v : UserData)
    (h : validate_user_data raw = .ok v) :
    ∃ bi sy tr,
      validateBasicInfo raw.basic_info = .ok bi ∧
      validateSymptoms raw.symptoms = .ok sy ∧
      validateTests raw.test_results testNames = .ok tr ∧
      v = ⟨bi, sy, tr⟩ := by
  unfold validate_user_data at h
  cases h1 : validateBasicInfo raw.basic_info with
  | error e => rw [h1, except_bind_err] at h; exact absurd h (by simp)
  | ok bi =>
  rw [h1, except_bind_ok] at h
  cases h2 : validateSymptoms raw.symptoms with
  | error e => rw [h2, except_bind_err] at h; exact absurd h (by simp)
  | ok sy =>
  rw [h2, except_bind_ok] at h
  cases h3 : validateTests raw.test_results testNames with
  | error e => rw [h3, except_bind_err] at h; exact absurd h (by simp)
  | ok tr =>
  rw [h3, except_bind_ok] at h
  injection h with h4
  exact ⟨bi, sy, tr, rfl, rfl, rfl, h4.symm⟩

/-- C10: every record accepted by `validate_user_data` has the fixed
schema: exactly the six basic-info keys, the twenty flags plus the two
detail fields, and the nine test keys, in order (anything else in the raw
input is dropped); the twenty flags and `chronic_diseases` are concrete
booleans; every other field is a typed validated value or null. -/
theorem validate_user_data_shape (raw : RawData) (v : UserData)
    (h : validate_user_data raw = .ok v) :
    v.basic_info.map Prod.fst =
      ["age", "gender", "weight", "temperature", "duration", "chronic_diseases"] ∧
    v.symptoms.map Prod.fst = symptomFlagNames ++ ["fever_duration", "cough_type"] ∧
    v.test_results.map Prod.fst = testNames ∧
    (∀ kv ∈ v.symptoms, kv.1 ∈ symptomFlagNames → ∃ b, kv.2 = .bool b) ∧
    (∀ kv ∈ v.basic_info,
      (kv.1 = "chronic_diseases" → ∃ b, kv.2 = .bool b) ∧
      (kv.1 = "age" →
        kv.2 = .none ∨ ∃ n : ℤ, kv.2 = .num (n : ℚ) ∧ MIN_AGE ≤ n ∧ n ≤ MAX_AGE) ∧
      (kv.1 = "gender" → kv.2 = .none ∨ kv.2 = .str "M" ∨ kv.2 = .str "F") ∧
      (kv.1 = "weight" →
        kv.2 = .none ∨ ∃ q : ℚ, kv.2 = .num q ∧ MIN_WEIGHT ≤ q ∧ q ≤ MAX_WEIGHT) ∧
      (kv.1 = "temperature" →
        kv.2 = .none ∨ ∃ q : ℚ, kv.2 = .num q ∧
          MIN_TEMPERATURE ≤ q ∧ q ≤ MAX_TEMPERATURE) ∧
      (kv.1 = "duration" → kv.2 = .none ∨ ∃ s, kv.2 = .str s)) ∧
    (∀ kv ∈ v.symptoms,
      (kv.1 = "fever_duration" →
        kv.2 = .none ∨ ∃ n : ℤ, kv.2 = .num (n : ℚ) ∧ MIN_AGE ≤ n ∧ n ≤ MAX_AGE) ∧
      (kv.1 = "cough_type" →
        kv.2 = .none ∨ kv.2 = .str "dry" ∨ kv.2 = .str "productive")) ∧
    (∀ kv ∈ v.test_results,
      ((kv.1 = "Malaria" ∨ kv.1 = "Dengue" ∨ kv.1 = "Typhoid") →
        kv.2 = .none ∨ ∃ b, kv.2 = .bool b) ∧
      (¬(kv.1 = "Malaria" ∨ kv.1 = "Dengue" ∨ kv.1 = "Typhoid") →
        kv.2 = .none ∨ ∃ q : ℚ, kv.2 = .num q)) := by
  obtain ⟨bi, sy, tr, hbi, hsy, htr, hv⟩ := validate_user_data_inv raw v h
  subst hv
  obtain ⟨age, gender, weight, temperature, duration, chronic,
    ha, hg, hw, ht, hd, hc, hbieq⟩ := validateBasicInfo_inv _ _ hbi
  subst hbieq
  obtain ⟨flags, fd, ct, hf, hfd, hct, hsyeq⟩ := validateSymptoms_inv _ _ hsy
  subst hsyeq
  obtain ⟨hfmap, hfvals⟩ := validateFlags_inv _ _ _ hf
  obtain ⟨htmap, htvals⟩ := validateTests_inv _ _ _ htr
  refine ⟨rfl, by simp [hfmap], htmap, ?_, ?_, ?_, ?_⟩
  · intro kv hkv hmem
    rcases List.mem_append.mp hkv with h1 | h1
    · exact hfvals kv h1
    · rcases List.mem_cons.mp h1 with h2 | h2
      · rw [h2] at hmem
        exact absurd hmem (by simp [symptomFlagNames])
      · rcases List.mem_cons.mp h2 with h3 | h3
        · rw [h3] at hmem
          exact absurd hmem (by simp [symptomFlagNames])
        · exact absurd h3 (by simp)
  · intro kv hkv
    simp only [List.mem_cons, List.not_mem_nil, or_false] at hkv
    rcases hkv with rfl | rfl | rfl | rfl | rfl | rfl
    · refine ⟨fun hx => absurd hx (by simp), fun _ => ?_,
        fun hx => absurd hx (by simp), fun hx => absurd hx (by simp),
        fun hx => absurd hx (by simp), fun hx => absurd hx (by simp)⟩
      rcases validate_age_shape ha with h1 | ⟨n, h1, hb⟩ <;> subst h1
      · exact Or.inl rfl
      · exact Or.inr ⟨n, rfl, hb⟩
    · refine ⟨fun hx => absurd hx (by simp), fun hx => absurd hx (by simp),
        fun _ => ?_, fun hx => absurd hx (by simp),
        fun hx => absurd hx (by simp), fun hx => absurd hx (by simp)⟩
      rcases validate_gender_shape hg with h1 | h1 | h1 <;> subst h1
      · exact Or.inl rfl
      · exact Or.inr (Or.inl rfl)
      · exact Or.inr (Or.inr rfl)
    · refine ⟨fun hx => absurd hx (by simp), fun hx => absurd hx (by simp),
        fun hx => absurd hx (by simp), fun _ => ?_,
        fun hx => absurd hx (by simp), fun hx => absurd hx (by simp)⟩
      rcases validate_weight_shape hw with h1 | ⟨q, h1, hb⟩ <;> subst h1
      · exact Or.inl rfl
      · exact Or.inr ⟨q, rfl, hb⟩
    · refine ⟨fun hx => absurd hx (by simp), fun hx => absurd hx (by simp),
        fun hx => absurd hx (by simp), fun hx => absurd hx (by simp),
        fun _ => ?_, fun hx => absurd hx (by simp)⟩
      rcases validate_temperature_shape ht with h1 | ⟨q, h1, hb⟩ <;> subst h1
      · exact Or.inl rfl
      · exact Or.inr ⟨q, rfl, hb⟩
    · refine ⟨fun hx => absurd hx (by simp), fun hx => absurd hx (by simp),
        fun hx => absurd hx (by simp), fun hx => absurd hx (by simp),
        fun hx => absurd hx (by simp), fun _ => ?_⟩
      cases duration with
      | none => exact Or.inl rfl
      | some s => exact Or.inr ⟨s, rfl⟩
    · exact ⟨fun _ => ⟨chronic, rfl⟩, fun hx => absurd hx (by simp),
        fun hx => absurd hx (by simp), fun hx => absurd hx (by simp),
        fun hx => absurd hx (by simp), fun hx => absurd hx (by simp)⟩
  · intro kv hkv
    rcases List.mem_append.mp hkv with h1 | h1
    · have hmem : kv.1 ∈ symptomFlagNames := by
        rw [← hfmap]
        exact List.mem_map_of_mem Prod.fst h1
      constructor
      · intro hx
        rw [hx] at hmem
        exact absurd hmem (by simp [symptomFlagNames])
      · intro hx
        rw [hx] at hmem
        exact absurd hmem (by simp [symptomFlagNames])
    · rcases List.mem_cons.mp h1 with h2 | h2
      · subst h2
        refine ⟨fun _ => ?_, fun hx => absurd hx (by simp)⟩
        rcases validate_age_shape hfd with h1 | ⟨n, h1, hb⟩ <;> subst h1
        · exact Or.inl rfl
        · exact Or.inr ⟨n, rfl, hb⟩
      · rcases List.mem_cons.mp h2 with h3 | h3
        · subst h3
          refine ⟨fun hx => absurd hx (by simp), fun _ => ?_⟩
          rcases validate_cough_type_shape hct with h1 | h1 | h1 <;> subst h1
          · exact Or.inl rfl
          · exact Or.inr (Or.inl rfl)
          · exact Or.inr (Or.inr rfl)
        · exact absurd h3 (by simp)
  · intro kv hkv
    exact ⟨fun hn => validate_test_result_bool_shape hn (htvals kv hkv),
      fun hn => validate_test_result_num_shape hn (htvals kv hkv)⟩

theorem validate_user_data_shape_witness :
    validate_user_data ⟨[], [], []⟩ = .ok emptyCanonicalRecord ∧
    emptyCanonicalRecord.basic_info.map Prod.fst =
      ["age", "gender", "weight", "temperature", "duration", "chronic_diseases"] ∧
    emptyCanonicalRecord.test_results.map Prod.fst = testNames := by
  have h := validate_user_data_shape ⟨[], [], []⟩ emptyCanonicalRecord rfl
  exact ⟨rfl, h.1, h.2.2.1⟩

/-- C9 fails on the code: a raw input supplying only `fever_duration` is
accepted, and the resulting record has `fever = false` with a non-null
`fever_duration`. -/
theorem detail_fields_decoupled_counterexample :
    validate_user_data rawDecoupled = .ok recDecoupled ∧
    dget recDecoupled.symptoms "fever" = .bool false ∧
    dget recDecoupled.symptoms "fever_duration" = .num 3 ∧
    Value.num 3 ≠ Value.none ∧ Value.bool false ≠ Value.bool true := by
  refine ⟨rfl, rfl, rfl, by simp, by simp⟩

/-- C9 (amended): the two conditional detail fields are validated only
against their own constraints (`fever_duration` a 0–150 integer or null,
`cough_type` dry/productive or null); their presence is not coupled to
the parent symptom flags: a record with `fever_duration` set and `fever`
false is accepted, and likewise a record with `cough_type` set and
`cough` false. -/
theorem detail_fields_validated_independently (raw : RawData) (v : UserData)
    (h : validate_user_data raw = .ok v) :
    (∀ kv ∈ v.symptoms,
      (kv.1 = "fever_duration" →
        kv.2 = .none ∨ ∃ n : ℤ, kv.2 = .num (n : ℚ) ∧ MIN_AGE ≤ n ∧ n ≤ MAX_AGE) ∧
      (kv.1 = "cough_type" →
        kv.2 = .none ∨ kv.2 = .str "dry" ∨ kv.2 = .str "productive")) ∧
    (∃ raw' v', validate_user_data raw' = .ok v' ∧
      dget v'.symptoms "fever" = .bool false ∧
      dget v'.symptoms "fever_duration" ≠ .none) ∧
    (∃ raw' v', validate_user_data raw' = .ok v' ∧
      dget v'.symptoms "cough" = .bool false ∧
      dget v'.symptoms "cough_type" ≠ .none) := by
  obtain ⟨bi, sy, tr, hbi, hsy, htr, hv⟩ := validate_user_data_inv raw v h
  subst hv
  obtain ⟨flags, fd, ct, hf, hfd, hct, hsyeq⟩ := validateSymptoms_inv _ _ hsy
  subst hsyeq
  obtain ⟨hfmap, _⟩ := validateFlags_inv _ _ _ hf
  constructor
  · intro kv hkv
    rcases List.mem_append.mp hkv with h1 | h1
    · have hmem : kv.1 ∈ symptomFlagNames := by
        rw [← hfmap]
        exact List.mem_map_of_mem Prod.fst h1
      constructor
      · intro hx
        rw [hx] at hmem
        exact absurd hmem (by simp [symptomFlagNames])
      · intro hx
        rw [hx] at hmem
        exact absurd hmem (by simp [symptomFlagNames])
    · rcases List.mem_cons.mp h1 with h2 | h2
      · subst h2
        refine ⟨fun _ => ?_, fun hx => absurd hx (by simp)⟩
        rcases validate_age_shape hfd with h1 | ⟨n, h1, hb⟩ <;> subst h1
        · exact Or.inl rfl
        · exact Or.inr ⟨n, rfl, hb⟩
      · rcases List.mem_cons.mp h2 with h3 | h3
        · subst h3
          refine ⟨fun hx => absurd hx (by simp), fun _ => ?_⟩
          rcases validate_cough_type_shape hct with h1 | h1 | h1 <;> subst h1
          · exact Or.inl rfl
          · exact Or.inr (Or.inl rfl)
          · exact Or.inr (Or.inr rfl)
        · exact absurd h3 (by simp)
  constructor
  · exact ⟨rawDecoupled, recDecoupled, rfl, rfl, by decide⟩
  · exact ⟨rawDecoupledCough, recDecoupledCough, rfl, rfl, by decide⟩

theorem detail_fields_validated_independently_witness :
    validate_user_data rawDecoupled = .ok recDecoupled ∧
    (∃ raw' v', validate_user_data raw' = .ok v' ∧
      dget v'.symptoms "fever" = .bool false ∧
      dget v'.symptoms "fever_duration" ≠ .none) ∧
    (∃ raw' v', validate_user_data raw' = .ok v' ∧
      dget v'.symptoms "cough" = .bool false ∧
      dget v'.symptoms "cough_type" ≠ .none) :=
  ⟨rfl, (detail_fields_validated_independently rawDecoupled recDecoupled rfl).2⟩

theorem sanitize_ok_shape {s d : String}
    (h : sanitize_string s (some 50) = .ok d) :
    d = if 50 < (collapseWs s).data.length
        then String.mk ((collapseWs s).data.take 50) else collapseWs s := by
  unfold sanitize_string at h
  by_cases h1 : hasHtmlTag s.data = true
  · rw [if_pos h1] at h; exact absurd h (by simp)
  · rw [if_neg h1] at h
    by_cases h2 : containsSub "javascript:".data (s.data.map Char.toLower) = true
    · rw [if_pos h2] at h; exact absurd h (by simp)
    · rw [if_neg h2] at h
      by_cases h3 : hasEventHandler (s.data.map Char.toLower) = true
      · rw [if_pos h3] at h; exact absurd h (by simp)
      · rw [if_neg h3] at h
        by_cases h4 : s.data.any isControlChar = true
        · rw [if_pos h4] at h; exact absurd h (by simp)
        · rw [if_neg h4] at h
          injection h with h'
          rw [← h']
          by_cases h5 : 50 < (collapseWs s).data.length
          · rw [if_pos (⟨by norm_num, h5⟩ : 0 < 50 ∧ 50 < (collapseWs s).data.length),
              if_pos h5]
          · rw [if_neg (fun hx => h5 hx.2), if_neg h5]

theorem str_ne_empty_of_data {s : String} (h : s.data ≠ []) : s ≠ "" := by
  intro hs
  subst hs
  exact h rfl

theorem isNoneOrEmpty_str_false {s : String} (h : s.data ≠ []) :
    isNoneOrEmpty (.str s) = false := by
  have hs : s ≠ "" := str_ne_empty_of_data h
  simp [isNoneOrEmpty, pyEq, hs]

/-- C8 fails on the code as stated: a 60-digit duration (well under the
claimed 1000-character cap) is truncated to 50 characters. -/
theorem validate_duration_maxlen_counterexample :
    (String.mk (List.replicate 60 '1')).length ≤ 1000 ∧
    validate_duration (.str (String.mk (List.replicate 60 '1'))) =
      .ok (some (String.mk (List.replicate 50 '1'))) ∧
    String.mk (List.replicate 50 '1') ≠ String.mk (List.replicate 60 '1') := by
  refine ⟨by decide, by rfl, by decide⟩

/-- C8 (amended): duration validation accepts a bare integer string or an
integer followed by a time-unit word, case-insensitively ("3 days",
"2 weeks", "5" accepted, "three days" rejected), fails with the security
rejection on input containing HTML tags, a javascript: scheme or control
characters, and otherwise passes the value through with collapsed
whitespace, truncated when the max-length of 50 (not 1000) is
exceeded. -/
theorem validate_duration_amended_spec :
    validate_duration (.str "3 days") = .ok (some "3 days") ∧
    validate_duration (.str "2 weeks") = .ok (some "2 weeks") ∧
    validate_duration (.str "5") = .ok (some "5") ∧
    validate_duration (.str "2 WEEKS") = .ok (some "2 WEEKS") ∧
    validate_duration (.str "three days") =
      .error "Duration must be a number or include time units (days, weeks, etc.)" ∧
    (∀ s : String, s.data ≠ [] → hasHtmlTag s.data = true →
      validate_duration (.str s) = .error "Invalid input detected") ∧
    (∀ s : String, s.data ≠ [] →
      containsSub "javascript:".data (s.data.map Char.toLower) = true →
      validate_duration (.str s) = .error "Invalid input detected") ∧
    (∀ s : String, s.data ≠ [] → s.data.any isControlChar = true →
      validate_duration (.str s) = .error "Invalid input detected") ∧
    (∀ s out : String, validate_duration (.str s) = .ok (some out) →
      (isDurationFormat out = true ∨ pyIsDigit out = true) ∧
      out = (if 50 < (collapseWs s).data.length
             then String.mk ((collapseWs s).data.take 50) else collapseWs s)) := by
  refine ⟨rfl, rfl, rfl, rfl, rfl, ?_, ?_, ?_, ?_⟩
  · intro s hne hpat
    unfold validate_duration
    rw [if_neg (by rw [isNoneOrEmpty_str_false hne]; simp)]
    show (sanitize_string s (some 50) >>= fun dstr => _) = _
    unfold sanitize_string
    rw [if_pos hpat, except_bind_err]
  · intro s hne hpat
    unfold validate_duration
    rw [if_neg (by rw [isNoneOrEmpty_str_false hne]; simp)]
    show (sanitize_string s (some 50) >>= fun dstr => _) = _
    unfold sanitize_string
    by_cases h1 : hasHtmlTag s.data = true
    · rw [if_pos h1, except_bind_err]
    · rw [if_neg h1, if_pos hpat, except_bind_err]
  · intro s hne hpat
    unfold validate_duration
    rw [if_neg (by rw [isNoneOrEmpty_str_false hne]; simp)]
    show (sanitize_string s (some 50) >>= fun dstr => _) = _
    unfold sanitize_string
    by_cases h1 : hasHtmlTag s.data = true
    · rw [if_pos h1, except_bind_err]
    · rw [if_neg h1]
      by_cases h2 : containsSub "javascript:".data (s.data.map Char.toLower) = true
      · rw [if_pos h2, except_bind_err]
      · rw [if_neg h2]
        by_cases h3 : hasEventHandler (s.data.map Char.toLower) = true
        · rw [if_pos h3, except_bind_err]
        · rw [if_neg h3, if_pos hpat, except_bind_err]
  · intro s out hacc
    unfold validate_duration at hacc
    by_cases h0 : isNoneOrEmpty (.str s) = true
    · rw [if_pos h0] at hacc
      injection hacc with h'
      exact absurd h' (by simp)
    · rw [if_neg h0] at hacc
      cases hsan : sanitize_string (pyStr (.str s)) (some 50) with
      | error e =>
        rw [hsan, except_bind_err] at hacc
        exact absurd hacc (by simp)
      | ok dstr =>
        rw [hsan, except_bind_ok] at hacc
        by_cases hfmt : (isDurationFormat dstr || pyIsDigit dstr) = true
        · rw [if_pos hfmt] at hacc
          injection hacc with h'
          injection h' with h''
          subst h''
          exact ⟨by simpa using hfmt, sanitize_ok_shape hsan⟩
        · rw [if_neg hfmt] at hacc
          exact absurd hacc (by simp)

theorem validate_duration_amended_spec_witness :
    validate_duration (.str "<b>1</b>") = .error "Invalid input detected" ∧
    validate_duration (.str "3 days") = .ok (some "3 days") := by
  refine ⟨?_, validate_duration_amended_spec.1⟩
  exact validate_duration_amended_spec.2.2.2.2.2.1 "<b>1</b>" (by decide) (by decide)

theorem check_emergency_null_safe_witness :
    dget (⟨[("weight", .num 70)], [("confusion", .bool true)], []⟩ :
        UserData).basic_info "temperature" = .none ∧
    (∃ a, check_emergency
        ⟨[("weight", .num 70)], [("confusion", .bool true)], []⟩ = .ok a ∧
      "High fever (>40°C)" ∉ a.reasons) :=
  ⟨rfl, (check_emergency_null_safe
    ⟨[("weight", .num 70)], [("confusion", .bool true)], []⟩ rfl).2.2.2.2⟩

end Healthcase
